import Mathlib

/-!
# A shallow embedding of the guestrace stealth-breakpoint engine

This file models the core of `src/trace-syscalls.c` (the callback-exposing
variant, prefix `gt_`) and, for the equivalence claim, the dispatcher of
`src/trace_syscalls.c` (the identifier-based variant, prefix `vf_`).

Modelling conventions:

* `addr_t` (a 64-bit unsigned integer) is modelled as `Nat`; wherever the C
  performs arithmetic that can wrap (shifts, sums, the subtraction
  `rsp - return_addr_width`), the result is reduced `% 2^64`.
* The libvmi/Xen environment is an oracle (`Machine`): a fixed
  virtual-to-physical translation `kv2p` (where `0` encodes translation
  failure, as in libvmi), a byte-addressed physical memory `mem` together
  with a validity predicate `valid` (a read or write of a physical byte
  succeeds iff the byte is valid; writes to invalid bytes leave memory
  unchanged, matching a failed `vmi_write_*` call), a kernel-symbol
  resolver `ksym2v` (`0` = unresolved), a page-table-root-to-pid oracle
  `dtbToPid`, the `MSR_LSTAR` value, and an allocation oracle `allocs`
  (the gfn granted by the n-th shadow-frame allocation, `0` standing for
  failure of any of the three Xen calls inside `gt_allocate_shadow_frame`).
* Hypervisor control operations that do not touch guest memory
  (`xc_altp2m_change_gfn`, `vmi_set_mem_event`,
  `xc_domain_decrease_reservation_exact`, `vmi_pause_vm`, ...) are recorded
  in an ordered effect trace `effects`.
* Every `vmi_write_64_pa` call made by the engine is additionally logged in
  `stackWrites` (these are exactly the guest-stack writes of the tracer).
* GLib hash tables keyed by `addr_t` are modelled as association lists
  (`AList`); `g_hash_table_new_full` destroy callbacks are invoked
  explicitly at the points where GLib would invoke them (value replacement,
  removal, `remove_all`, table destruction), matching the C, where
  `gt_ret_addr_mapping` destroys values with `gt_restore_return_addr` and
  `gt_page_record_collection` destroys values with `gt_destroy_page_record`.
* User callbacks are opaque pure functions: an entry callback receives
  (pid, thread-id, registered payload) and returns the per-call payload; a
  return callback receives (pid, thread-id, per-call payload).  Callback
  invocations performed by the dispatcher are logged in the dispatcher's
  result (`entryCalls` / `retCalls`) so that theorems can talk about them.
-/

set_option maxRecDepth 4000

namespace Guestrace

/-- The modulus `2^64` of the C type `addr_t` (a 64-bit unsigned integer). -/
def M64 : Nat := 2 ^ 64

/-- Model of `GT_PAGE_OFFSET_BITS`: number of bits available for page offset. -/
def GT_PAGE_OFFSET_BITS : Nat := 12

/-- Model of `GT_PAGE_SIZE = 1 << GT_PAGE_OFFSET_BITS`. -/
def GT_PAGE_SIZE : Nat := 2 ^ GT_PAGE_OFFSET_BITS

/-- Model of `GT_BREAKPOINT_INST`: the INT 3 instruction byte `0xCC`. -/
def GT_BREAKPOINT_INST : Nat := 0xCC

/-- The value `(addr_t) ~0`, the invalid gfn passed to `xc_altp2m_change_gfn`. -/
def INVALID_GFN : Nat := M64 - 1

/-- The address `(frame << GT_PAGE_OFFSET_BITS) + offset`, computed in `addr_t`. -/
def pageAddr (frame offset : Nat) : Nat :=
  (frame * GT_PAGE_SIZE + offset) % M64

/-- The 64-bit subtraction `a - b` as computed on `addr_t` values. -/
def sub64 (a b : Nat) : Nat := (a + (M64 - b % M64)) % M64

/-- The `i`-th little-endian byte of the 64-bit value `v`. -/
def byteOf (v i : Nat) : Nat := v / 256 ^ i % 256

/-- The libvmi/Xen environment consumed by the engine. -/
structure Machine where
  /-- Model of `vmi_translate_kv2p`; a result of `0` encodes translation failure. -/
  kv2p : Nat → Nat
  /-- Guest physical memory, byte addressed. -/
  mem : Nat → Nat
  /-- Whether a physical byte can be read/written (`vmi_read/write` succeed). -/
  valid : Nat → Bool
  /-- Model of `vmi_translate_ksym2v`; a result of `0` encodes an unresolved symbol. -/
  ksym2v : String → Nat
  /-- Model of `vmi_dtb_to_pid`. -/
  dtbToPid : Nat → Int
  /-- The `MSR_LSTAR` register value on VCPU 0. -/
  lstar : Nat
  /-- Allocation oracle: gfn granted by the n-th shadow-frame allocation;
  `0` stands for failure of any of the Xen calls inside the allocator. -/
  allocs : Nat → Nat

/-- Model of `vmi_read_8_pa`. -/
def Machine.read8 (m : Machine) (pa : Nat) : Option Nat :=
  if m.valid pa then some (m.mem pa % 256) else none

/-- Model of `vmi_write_8_pa`; `none` on failure. -/
def Machine.write8 (m : Machine) (pa v : Nat) : Option Machine :=
  if m.valid pa then
    some { m with mem := fun x => if x = pa then v % 256 else m.mem x }
  else none

/-- Whether all 8 bytes of the 64-bit slot at `pa` are accessible. -/
def Machine.valid64 (m : Machine) (pa : Nat) : Bool :=
  (List.range 8).all (fun i => m.valid (pa + i))

/-- Little-endian value of `n` bytes of `f` starting at `pa`. -/
def leBytes (f : Nat → Nat) (pa : Nat) : Nat → Nat
  | 0 => 0
  | n + 1 => f pa % 256 + 256 * leBytes f (pa + 1) n

/-- Model of `vmi_read_64_pa`; `none` on failure. -/
def Machine.read64 (m : Machine) (pa : Nat) : Option Nat :=
  if m.valid64 pa then some (leBytes m.mem pa 8) else none

/-- Model of `vmi_write_64_pa`; on failure the memory is left unchanged (the engine
either merely logs such failures or ignores the status). -/
def Machine.write64 (m : Machine) (pa v : Nat) : Machine :=
  if m.valid64 pa then
    { m with mem := fun x => if pa ≤ x ∧ x < pa + 8 then byteOf v (x - pa) else m.mem x }
  else m

/-- Model of `vmi_read_pa` of `n` bytes starting at physical address `pa` (addresses
advance modulo `2^64`); `none` unless all `n` bytes were readable, matching
the `GT_PAGE_SIZE != ret` checks in the C. -/
def Machine.readBytes (m : Machine) (pa : Nat) : Nat → Option (List Nat)
  | 0 => some []
  | n + 1 =>
    match m.read8 pa, m.readBytes ((pa + 1) % M64) n with
    | some b, some rest => some (b :: rest)
    | _, _ => none

/-- Model of `vmi_write_pa` of a byte list starting at `pa`; `none` unless every
byte was writable. -/
def Machine.writeBytes (m : Machine) (pa : Nat) : List Nat → Option Machine
  | [] => some m
  | b :: rest =>
    match m.write8 pa b with
    | some m' => m'.writeBytes ((pa + 1) % M64) rest
    | none => none

/-- A GLib hash table keyed by `addr_t` (`g_direct_hash` on a 64-bit key). -/
abbrev AList (α : Type) := List (Nat × α)

/-- Model of `g_hash_table_lookup`. -/
def alook {α : Type} : AList α → Nat → Option α
  | [], _ => none
  | (k', v) :: rest, k => if k' = k then some v else alook rest k

/-- Drop every pair with the given key. -/
def aerase {α : Type} (l : AList α) (k : Nat) : AList α :=
  l.filter (fun p => p.1 != k)

/-- Model of `g_hash_table_insert` (for a table whose values need no destruction, or
at a point where the key is known to be absent). -/
def aset {α : Type} (l : AList α) (k : Nat) (v : α) : AList α :=
  (k, v) :: aerase l k

/-- Model of `gt_paddr_record`: a breakpoint record.  The parent back-pointer is not
carried (the ambient `GTLoop` plays its role); `P` is the opaque payload
type (`void *`). -/
structure PaddrRecord (P : Type) where
  offset : Nat
  /-- Model of `GTSyscallFunc`: receives (pid, thread-id, registered data), returns
  the per-call payload. -/
  syscall_cb : Int → Nat → P → P
  /-- Model of `GTSysretFunc`: receives (pid, thread-id, per-call payload). -/
  sysret_cb : Int → Nat → P → Unit
  /-- Optional user data passed to `syscall_cb`. -/
  data : P

/-- Model of `gt_page_record`: describes one monitored frame.  `children` is keyed by
in-frame offset. -/
structure PageRecord (P : Type) where
  frame : Nat
  shadow_frame : Nat
  children : AList (PaddrRecord P)

/-- Model of `gt_syscall_state`: the state recorded at a system-call entry and
consumed at the matching return. -/
structure SyscallState (P : Type) where
  syscall_paddr_record : PaddrRecord P
  data : P
  thread_id : Nat

/-- Memory-access kinds for `vmi_set_mem_event`. -/
inductive MemAccess
  | n
  | rw
  deriving DecidableEq, Repr

/-- Hypervisor control operations recorded in order of issue. -/
inductive Effect
  | pauseVM
  | resumeVM
  | setMaxMem (size : Nat)
  | increaseReservation (count : Nat)
  | populatePhysmap (gfn : Nat)
  | changeGfn (view oldGfn newGfn : Nat)
  | setMemEvent (frame : Nat) (access : MemAccess) (view : Nat)
  | decreaseReservation (gfn : Nat)
  | switchToView (view : Nat)
  deriving DecidableEq, Repr

/-- Model of `GTLoop`: the per-guest tracer state. -/
structure GTLoop (P : Type) where
  mach : Machine
  /-- Model of `gt_page_translation`: original frame ↦ shadow frame. -/
  page_translation : AList Nat
  /-- Model of `gt_page_record_collection`: shadow frame ↦ page record. -/
  page_records : AList (PageRecord P)
  /-- Model of `gt_ret_addr_mapping`: thread id (entry-time rsp) ↦ syscall state. -/
  ret_addr_mapping : AList (SyscallState P)
  return_addr : Nat
  trampoline_addr : Nat
  return_addr_width : Nat
  shadow_view : Nat
  curr_mem_size : Nat
  /-- Number of shadow-frame allocations performed so far. -/
  allocCount : Nat
  /-- The global `gt_interrupted` flag. -/
  interrupted : Bool
  effects : List Effect
  /-- Log of the `vmi_write_64_pa` calls issued (physical address, value). -/
  stackWrites : List (Nat × Nat)

/-- Append one hypervisor effect. -/
def GTLoop.emit {P : Type} (loop : GTLoop P) (e : Effect) : GTLoop P :=
  { loop with effects := loop.effects ++ [e] }

/-- Model of `gt_restore_return_addr`: write the canonical return address back into
the stack slot recorded in a `gt_syscall_state` (the value-destroy function
of `gt_ret_addr_mapping`). -/
def gt_restore_return_addr {P : Type} (loop : GTLoop P) (st : SyscallState P) :
    GTLoop P :=
  let pa := loop.mach.kv2p st.thread_id
  if pa = 0 then loop
  else
    { loop with
        mach := loop.mach.write64 pa loop.return_addr
        stackWrites := loop.stackWrites ++ [(pa, loop.return_addr)] }

/-- Model of `g_hash_table_insert` on `gt_ret_addr_mapping`: replacing a value first
destroys the old one with `gt_restore_return_addr`. -/
def GTLoop.retInsert {P : Type} (loop : GTLoop P) (tid : Nat)
    (st : SyscallState P) : GTLoop P :=
  let loop :=
    match alook loop.ret_addr_mapping tid with
    | some old => gt_restore_return_addr loop old
    | none => loop
  { loop with ret_addr_mapping := aset loop.ret_addr_mapping tid st }

/-- Model of `g_hash_table_remove` on `gt_ret_addr_mapping`: the removed value is
destroyed with `gt_restore_return_addr`. -/
def GTLoop.retRemove {P : Type} (loop : GTLoop P) (tid : Nat) : GTLoop P :=
  match alook loop.ret_addr_mapping tid with
  | some old =>
    let loop := gt_restore_return_addr loop old
    { loop with ret_addr_mapping := aerase loop.ret_addr_mapping tid }
  | none => loop

/-- Model of `g_hash_table_remove_all` on `gt_ret_addr_mapping`: every value is
destroyed with `gt_restore_return_addr`. -/
def GTLoop.retRemoveAll {P : Type} (loop : GTLoop P) : GTLoop P :=
  let loop := loop.ret_addr_mapping.foldl
    (fun l p => gt_restore_return_addr l p.2) loop
  { loop with ret_addr_mapping := [] }

/-- Model of `gt_remove_breakpoint`: copy the current byte of the original frame over
the breakpoint byte in the shadow frame (failures are ignored by the
caller, the record destructor). -/
def gt_remove_breakpoint {P : Type} (loop : GTLoop P) (pr : PageRecord P)
    (r : PaddrRecord P) : GTLoop P :=
  match loop.mach.read8 (pageAddr pr.frame r.offset) with
  | none => loop
  | some curr_inst =>
    match loop.mach.write8 (pageAddr pr.shadow_frame r.offset) curr_inst with
    | some m => { loop with mach := m }
    | none => loop

/-- Model of `gt_destroy_paddr_record` (the children value-destroy function). -/
def gt_destroy_paddr_record {P : Type} (loop : GTLoop P) (pr : PageRecord P)
    (r : PaddrRecord P) : GTLoop P :=
  gt_remove_breakpoint loop pr r

/-- Model of `gt_destroy_page_record` (the `gt_page_record_collection` value-destroy
function): destroy the children, stop monitoring the frame, change the gfn
mapping in the shadow view, and release the shadow frame. -/
def gt_destroy_page_record {P : Type} (loop : GTLoop P) (pr : PageRecord P) :
    GTLoop P :=
  let loop := pr.children.foldl (fun l p => gt_destroy_paddr_record l pr p.2) loop
  let loop := loop.emit (.setMemEvent pr.frame .n loop.shadow_view)
  let loop := loop.emit (.changeGfn loop.shadow_view pr.shadow_frame INVALID_GFN)
  loop.emit (.decreaseReservation pr.shadow_frame)

/-- Model of `g_hash_table_remove_all` on `gt_page_record_collection`. -/
def GTLoop.pageRecordsRemoveAll {P : Type} (loop : GTLoop P) : GTLoop P :=
  let loop := loop.page_records.foldl
    (fun l p => gt_destroy_page_record l p.2) loop
  { loop with page_records := [] }

/-- Model of `gt_loop_quit`. -/
def gt_loop_quit {P : Type} (loop : GTLoop P) : GTLoop P :=
  let loop := loop.emit .pauseVM
  let loop := { loop with page_translation := ([] : AList Nat) }
  let loop := loop.retRemoveAll
  let loop := loop.pageRecordsRemoveAll
  let loop := loop.emit (.switchToView 0)
  let loop := loop.emit .resumeVM
  { loop with interrupted := true }

/-- Model of `gt_allocate_shadow_frame`: raise the memory cap by one page and request
a fresh guest physical frame; `0` signals failure. -/
def gt_allocate_shadow_frame {P : Type} (loop : GTLoop P) : Nat × GTLoop P :=
  let proposed := (loop.curr_mem_size + GT_PAGE_SIZE) % M64
  let loop := loop.emit (.setMaxMem proposed)
  let loop := { loop with curr_mem_size := proposed }
  let gfn := loop.mach.allocs loop.allocCount
  let loop := { loop with allocCount := loop.allocCount + 1 }
  let loop := loop.emit (.increaseReservation 1)
  if gfn = 0 then (0, loop)
  else (gfn, loop.emit (.populatePhysmap gfn))

/-- Model of `gt_paddr_record_from_pa`: two map hops, frame ↦ shadow ↦ page record,
then offset ↦ breakpoint record. -/
def gt_paddr_record_from_pa {P : Type} (loop : GTLoop P) (pa : Nat) :
    Option (PaddrRecord P) :=
  let frame := pa / GT_PAGE_SIZE
  let offset := pa % GT_PAGE_SIZE
  match alook loop.page_translation frame with
  | none => none
  | some shadow =>
    match alook loop.page_records shadow with
    | none => none
    | some page_record => alook page_record.children offset

/-- Model of `gt_paddr_record_from_va`. -/
def gt_paddr_record_from_va {P : Type} (loop : GTLoop P) (va : Nat) :
    Option (PaddrRecord P) :=
  gt_paddr_record_from_pa loop (loop.mach.kv2p va)

/-- First phase of `gt_setup_mem_trap`: find the shadow frame for `frame`
in `gt_page_translation`, or allocate one, record the translation, and
activate it in the shadow view (`xc_altp2m_change_gfn`). -/
def gt_setup_shadow {P : Type} (loop : GTLoop P) (frame : Nat) :
    Option Nat × GTLoop P :=
  match alook loop.page_translation frame with
  | some shadow => (some shadow, loop)
  | none =>
    let (shadow, loop) := gt_allocate_shadow_frame loop
    if shadow = 0 then (none, loop)
    else
      let loop :=
        { loop with page_translation := aset loop.page_translation frame shadow }
      (some shadow, loop.emit (.changeGfn loop.shadow_view frame shadow))

/-- Second phase of `gt_setup_mem_trap`: find the page record for `shadow`
in `gt_page_record_collection` or create one (copying the original page
into the shadow page and arming the mem-access trap).  The boolean marks a
freshly created record (on which the C performs no child lookup). -/
def gt_setup_page_record {P : Type} (loop : GTLoop P) (frame shadow : Nat) :
    Option (PageRecord P × Bool) × GTLoop P :=
  match alook loop.page_records shadow with
  | some page_record => (some (page_record, false), loop)
  | none =>
    match loop.mach.readBytes (pageAddr frame 0) GT_PAGE_SIZE with
    | none => (none, loop)
    | some buff =>
      match loop.mach.writeBytes (pageAddr shadow 0) buff with
      | none => (none, loop)
      | some m =>
        let loop := { loop with mach := m }
        let page_record : PageRecord P := ⟨frame, shadow, []⟩
        let loop :=
          { loop with page_records := aset loop.page_records shadow page_record }
        (some (page_record, true), loop.emit (.setMemEvent frame .rw loop.shadow_view))

/-- Model of `gt_setup_mem_trap`: the breakpoint-table install operation.  Returns
the breakpoint record (or `none` on error) together with the new state.
All branches, including the error exits marked TODO in the C, are kept; in
particular a failing breakpoint-byte write still returns the fresh record
without inserting it, exactly as the C's final `goto done` does. -/
def gt_setup_mem_trap {P : Type} (loop : GTLoop P) (va : Nat)
    (syscall_cb : Int → Nat → P → P) (sysret_cb : Int → Nat → P → Unit)
    (user_data : P) : Option (PaddrRecord P) × GTLoop P :=
  let pa := loop.mach.kv2p va
  if pa = 0 then (none, loop)
  else
    let frame := pa / GT_PAGE_SIZE
    let shadow_offset := pa % GT_PAGE_SIZE
    match gt_setup_shadow loop frame with
    | (none, loop) => (none, loop)
    | (some shadow, loop) =>
      match gt_setup_page_record loop frame shadow with
      | (none, loop) => (none, loop)
      | (some (page_record, isNew), loop) =>
        match (if isNew then none else alook page_record.children shadow_offset) with
        | some existing => (some existing, loop)
        | none =>
          let paddr_record : PaddrRecord P :=
            ⟨shadow_offset, syscall_cb, sysret_cb, user_data⟩
          match loop.mach.write8 (pageAddr shadow shadow_offset) GT_BREAKPOINT_INST with
          | none => (some paddr_record, loop)
          | some m =>
            let loop := { loop with mach := m }
            let page_record' :=
              { page_record with
                  children := aset page_record.children shadow_offset paddr_record }
            let loop :=
              { loop with page_records := aset loop.page_records shadow page_record' }
            (some paddr_record, loop)

/-- Model of `GTSyscallCallback`: one entry of the array passed to `gt_loop_set_cbs`. -/
structure GTSyscallCallback (P : Type) where
  name : String
  syscall_cb : Int → Nat → P → P
  sysret_cb : Int → Nat → P → Unit
  user_data : P

/-- Model of `gt_loop_set_cb`: pause, resolve the kernel symbol (`0` = unresolved,
fail), install the trap, resume. -/
def gt_loop_set_cb {P : Type} (loop : GTLoop P) (kernel_func : String)
    (syscall_cb : Int → Nat → P → P) (sysret_cb : Int → Nat → P → Unit)
    (user_data : P) : Bool × GTLoop P :=
  let loop := loop.emit .pauseVM
  let sysaddr := loop.mach.ksym2v kernel_func
  if sysaddr = 0 then (false, loop.emit .resumeVM)
  else
    match gt_setup_mem_trap loop sysaddr syscall_cb sysret_cb user_data with
    | (none, loop) => (false, loop.emit .resumeVM)
    | (some _, loop) => (true, loop.emit .resumeVM)

/-- Model of `gt_loop_set_cbs`: invoke `gt_loop_set_cb` per entry while not
interrupted; return the number of successful registrations. -/
def gt_loop_set_cbs {P : Type} (loop : GTLoop P) :
    List (GTSyscallCallback P) → Nat × GTLoop P
  | [] => (0, loop)
  | cb :: rest =>
    if loop.interrupted then (0, loop)
    else
      let (ok, loop') :=
        gt_loop_set_cb loop cb.name cb.syscall_cb cb.sysret_cb cb.user_data
      let (n, loop'') := gt_loop_set_cbs loop' rest
      ((if ok then 1 else 0) + n, loop'')

/-- The per-entry success/failure outcomes of a `gt_loop_set_cbs` run, in
batch order. -/
def gt_set_cb_results {P : Type} (loop : GTLoop P) :
    List (GTSyscallCallback P) → List Bool
  | [] => []
  | cb :: rest =>
    if loop.interrupted then []
    else
      let (ok, loop') :=
        gt_loop_set_cb loop cb.name cb.syscall_cb cb.sysret_cb cb.user_data
      ok :: gt_set_cb_results loop' rest

/-- The C loop scanning a page for the first `0xCC` byte
(`for (curr_inst = 0; ...) if (code[curr_inst] == GT_BREAKPOINT_INST) ...`):
index of the first breakpoint byte. -/
def findBreakpointIdx : List Nat → Option Nat
  | [] => none
  | b :: rest =>
    if b = GT_BREAKPOINT_INST then some 0
    else (findBreakpointIdx rest).map (· + 1)

/-- Model of `gt_find_trampoline_addr`: read the first page at the `MSR_LSTAR` entry
point and return the address of the first existing INT 3 byte, `0` on any
failure. -/
def gt_find_trampoline_addr (m : Machine) : Nat :=
  let lstar := m.lstar
  let lstar_p := m.kv2p lstar
  if lstar_p = 0 then 0
  else
    match m.readBytes lstar_p GT_PAGE_SIZE with
    | none => 0
    | some code =>
      match findBreakpointIdx code with
      | some curr_inst => (lstar + curr_inst) % M64
      | none => 0

/-- A hypervisor interrupt event as seen by `gt_breakpoint_cb`. -/
structure TrapEvent where
  /-- Model of `event->interrupt_event.gla`: faulting guest linear address. -/
  gla : Nat
  /-- Model of `event->x86_regs->rsp`. -/
  rsp : Nat
  /-- Model of `event->x86_regs->cr3`. -/
  cr3 : Nat
  /-- Model of `event->vcpu_id`. -/
  vcpu_id : Nat
  deriving DecidableEq, Repr

/-- The `VMI_EVENT_RESPONSE_*` flags returned by an event callback. -/
structure Response where
  toggleSinglestep : Bool := false
  vmmPagetableId : Bool := false
  emulate : Bool := false
  deriving DecidableEq, Repr

/-- Model of `VMI_EVENT_RESPONSE_NONE`. -/
def Response.none_ : Response := {}

/-- Model of `VMI_EVENT_RESPONSE_TOGGLE_SINGLESTEP | VMI_EVENT_RESPONSE_VMM_PAGETABLE_ID`. -/
def Response.stepAndFlip : Response :=
  { toggleSinglestep := true, vmmPagetableId := true }

/-- Result of one `gt_breakpoint_cb` invocation: the response flags, the
mutations of the event structure (`reinject`, `slat_id`), the `RIP`
write-back, the callback invocations performed (as (pid, thread-id,
payload) triples) and the new tracer state. -/
structure GtCbOut (P : Type) where
  response : Response
  reinject : Bool
  slatId : Option Nat
  ripWrite : Option Nat
  entryCalls : List (Int × Nat × P)
  retCalls : List (Int × Nat × P)
  loop : GTLoop P

/-- Model of `gt_breakpoint_cb`: the single interrupt-event handler. -/
def gt_breakpoint_cb {P : Type} (loop : GTLoop P) (ev : TrapEvent) : GtCbOut P :=
  if ev.gla = loop.trampoline_addr then
    -- Type-two breakpoint (system return).
    let thread_id := sub64 ev.rsp loop.return_addr_width
    match alook loop.ret_addr_mapping thread_id with
    | none =>
      { response := .none_, reinject := false, slatId := none, ripWrite := none
        entryCalls := [], retCalls := [], loop := loop }
    | some state =>
      let pid := loop.mach.dtbToPid ev.cr3
      let ripVal := loop.return_addr
      -- g_hash_table_remove destroys the state with gt_restore_return_addr.
      let loop' := loop.retRemove thread_id
      { response := .none_, reinject := false, slatId := none
        ripWrite := some ripVal
        entryCalls := [], retCalls := [(pid, thread_id, state.data)], loop := loop' }
  else
    -- Type-one breakpoint (system call).
    match gt_paddr_record_from_va loop ev.gla with
    | none =>
      -- Assume we didn't emplace the interrupt.
      { response := .none_, reinject := true, slatId := none, ripWrite := none
        entryCalls := [], retCalls := [], loop := loop }
    | some record =>
      let thread_id := ev.rsp
      let return_loc := loop.mach.kv2p thread_id
      if return_loc = 0 then
        { response := .stepAndFlip, reinject := false, slatId := some 0
          ripWrite := none, entryCalls := [], retCalls := [], loop := loop }
      else
        match loop.mach.read64 return_loc with
        | none =>
          { response := .stepAndFlip, reinject := false, slatId := some 0
            ripWrite := none, entryCalls := [], retCalls := [], loop := loop }
        | some return_addr =>
          if return_addr ≠ loop.return_addr then
            { response := .stepAndFlip, reinject := false, slatId := some 0
              ripWrite := none, entryCalls := [], retCalls := [], loop := loop }
          else
            let pid := loop.mach.dtbToPid ev.cr3
            let payload := record.syscall_cb pid thread_id record.data
            let state : SyscallState P := ⟨record, payload, thread_id⟩
            let loop' := loop.retInsert thread_id state
            let loop' :=
              { loop' with
                  mach := loop'.mach.write64 return_loc loop'.trampoline_addr
                  stackWrites :=
                    loop'.stackWrites ++ [(return_loc, loop'.trampoline_addr)] }
            { response := .stepAndFlip, reinject := false, slatId := some 0
              ripWrite := none
              entryCalls := [(pid, thread_id, record.data)], retCalls := []
              loop := loop' }

/-- The three stack-slot checks on the call-site path of `gt_breakpoint_cb`
(`vmi_translate_kv2p` succeeds, `vmi_read_64_pa` succeeds, and the word
read equals the canonical return address). -/
def entryChecksPass {P : Type} (loop : GTLoop P) (rsp : Nat) : Bool :=
  let return_loc := loop.mach.kv2p rsp
  if return_loc = 0 then false
  else
    match loop.mach.read64 return_loc with
    | some w => w == loop.return_addr
    | none => false

/-- Model of `vf_paddr_record`: a breakpoint record of the identifier-based variant
(no callbacks; an identifier set after installation). -/
structure VfPaddrRecord where
  offset : Nat
  identifier : Nat
  deriving DecidableEq, Repr

/-- Model of `vf_page_record`. -/
structure VfPageRecord where
  frame : Nat
  shadow_page : Nat
  children : AList VfPaddrRecord
  deriving DecidableEq, Repr

/-- Model of `vf_state` together with the globals `return_point_addr` and
`trampoline_addr` of `trace_syscalls.c`.  `junk` is the value an
uninitialized local (`ret_addr` in `vf_breakpoint_cb`) holds when the
unchecked `vmi_read_64_pa` fails. -/
structure VfState where
  mach : Machine
  vf_page_translation : AList Nat
  vf_page_record_collection : AList VfPageRecord
  /-- Model of `vf_ret_addr_mapping`: created with `g_hash_table_new(NULL, NULL)`,
  so it has no value-destroy function. -/
  vf_ret_addr_mapping : AList VfPaddrRecord
  shadow_view : Nat
  curr_mem_size : Nat
  allocCount : Nat
  effects : List Effect
  stackWrites : List (Nat × Nat)
  return_point_addr : Nat
  trampoline_addr : Nat
  junk : Nat

/-- Model of `vf_paddr_record_from_pa`. -/
def vf_paddr_record_from_pa (s : VfState) (pa : Nat) : Option VfPaddrRecord :=
  let frame := pa / GT_PAGE_SIZE
  let offset := pa % GT_PAGE_SIZE
  match alook s.vf_page_translation frame with
  | none => none
  | some shadow =>
    match alook s.vf_page_record_collection shadow with
    | none => none
    | some page_record => alook page_record.children offset

/-- Model of `vf_paddr_record_from_va`. -/
def vf_paddr_record_from_va (s : VfState) (va : Nat) : Option VfPaddrRecord :=
  vf_paddr_record_from_pa s (s.mach.kv2p va)

/-- Result of one `vf_breakpoint_cb` invocation.  The built-in printers
(`print_syscall` / `print_sysret`) are logged as the records they were
invoked on. -/
structure VfCbOut where
  response : Response
  reinject : Bool
  slatId : Option Nat
  ripWrite : Option Nat
  printSyscalls : List (Nat × VfPaddrRecord)
  printSysrets : List (Nat × VfPaddrRecord)
  state : VfState

/-- Model of `vf_breakpoint_cb`: the interrupt-event handler of `trace_syscalls.c`.
Note it returns `VMI_EVENT_RESPONSE_EMULATE` for a foreign breakpoint, does
not check the `vmi_translate_kv2p` result on the call-site path, restores
the stack word explicitly on the return-site path, and hard-codes the
8-byte word width on the return-site path. -/
def vf_breakpoint_cb (s : VfState) (ev : TrapEvent) : VfCbOut :=
  if ev.gla = s.trampoline_addr then
    -- Type-two breakpoint.
    let thread_id := sub64 ev.rsp 8
    match alook s.vf_ret_addr_mapping thread_id with
    | none =>
      { response := .none_, reinject := false, slatId := none, ripWrite := none
        printSyscalls := [], printSysrets := [], state := s }
    | some paddr_record =>
      let pa := s.mach.kv2p thread_id
      let s' :=
        { s with
            mach := s.mach.write64 pa s.return_point_addr
            stackWrites := s.stackWrites ++ [(pa, s.return_point_addr)] }
      let s' :=
        { s' with vf_ret_addr_mapping := aerase s'.vf_ret_addr_mapping thread_id }
      { response := .none_, reinject := false, slatId := none
        ripWrite := some s.return_point_addr
        printSyscalls := [], printSysrets := [(ev.vcpu_id, paddr_record)]
        state := s' }
  else
    -- Type-one breakpoint.
    match vf_paddr_record_from_va s ev.gla with
    | none =>
      { response := { emulate := true }, reinject := true, slatId := none
        ripWrite := none, printSyscalls := [], printSysrets := [], state := s }
    | some paddr_record =>
      let thread_id := ev.rsp
      let ret_loc := s.mach.kv2p thread_id
      let ret_addr := (s.mach.read64 ret_loc).getD s.junk
      let (prints, s') :=
        if ret_addr = s.return_point_addr then
          let s' :=
            { s with
                mach := s.mach.write64 ret_loc s.trampoline_addr
                stackWrites := s.stackWrites ++ [(ret_loc, s.trampoline_addr)] }
          let s' :=
            { s' with
                vf_ret_addr_mapping :=
                  aset s'.vf_ret_addr_mapping thread_id paddr_record }
          ([(ev.vcpu_id, paddr_record)], s')
        else ([], s)
      { response := .stepAndFlip, reinject := false, slatId := some 0
        ripWrite := none, printSyscalls := prints, printSysrets := []
        state := s' }

/-- A concrete Page Record (original frame 1, shadow frame 2) used to
refute the claim that destruction restores the mapping of the original
frame. -/
def c2PageRecord : PageRecord Unit :=
  { frame := 1, shadow_frame := 2, children := [] }

/-- A concrete tracer state for exercising `gt_destroy_page_record`. -/
def c2Loop : GTLoop Unit :=
  { mach :=
      { kv2p := fun v => v, mem := fun _ => 0, valid := fun _ => true
        ksym2v := fun _ => 0, dtbToPid := fun _ => 1, lstar := 0
        allocs := fun _ => 5 }
    page_translation := [], page_records := [], ret_addr_mapping := []
    return_addr := 300, trampoline_addr := 50, return_addr_width := 8
    shadow_view := 7, curr_mem_size := 1000000, allocCount := 0
    interrupted := false, effects := [], stackWrites := [] }

/-- Concrete state for the C6 witness: no breakpoint installed anywhere. -/
def c6Loop : GTLoop Unit :=
  { mach :=
      { kv2p := fun v => v, mem := fun _ => 0, valid := fun _ => true
        ksym2v := fun _ => 0, dtbToPid := fun _ => 1, lstar := 0
        allocs := fun _ => 5 }
    page_translation := [], page_records := [], ret_addr_mapping := []
    return_addr := 300, trampoline_addr := 50, return_addr_width := 8
    shadow_view := 1, curr_mem_size := 1000000, allocCount := 0
    interrupted := false, effects := [], stackWrites := [] }

/-- Concrete state for the C3 witness: a breakpoint record is installed for
guest virtual address `0x2000`, but the word at the guest stack pointer
holds `0` instead of the canonical return address `300`. -/
def c3Loop : GTLoop Unit :=
  { mach :=
      { kv2p := fun v => v, mem := fun _ => 0, valid := fun _ => true
        ksym2v := fun _ => 0, dtbToPid := fun _ => 1, lstar := 0
        allocs := fun _ => 5 }
    page_translation := [(2, 9)]
    page_records := [(9, { frame := 2, shadow_frame := 9
                           children := [(0, { offset := 0
                                              syscall_cb := fun _ _ d => d
                                              sysret_cb := fun _ _ _ => ()
                                              data := () })] })]
    ret_addr_mapping := [], return_addr := 300, trampoline_addr := 50
    return_addr_width := 8, shadow_view := 1, curr_mem_size := 1000000
    allocCount := 0, interrupted := false, effects := [], stackWrites := [] }

/-- The breakpoint record installed in `c3Loop`. -/
def c3Record : PaddrRecord Unit :=
  { offset := 0, syscall_cb := fun _ _ d => d, sysret_cb := fun _ _ _ => ()
    data := () }

/-- The Call-State Entry used by the C4 witness. -/
def c4State : SyscallState Unit :=
  { syscall_paddr_record :=
      { offset := 0, syscall_cb := fun _ _ d => d, sysret_cb := fun _ _ _ => ()
        data := () }
    data := (), thread_id := 100 }

/-- Concrete state for the C4 witness: one in-flight call recorded at
thread id 100. -/
def c4Loop : GTLoop Unit :=
  { mach :=
      { kv2p := fun v => v, mem := fun _ => 0, valid := fun _ => true
        ksym2v := fun _ => 0, dtbToPid := fun _ => 7, lstar := 0
        allocs := fun _ => 5 }
    page_translation := [], page_records := []
    ret_addr_mapping := [(100, c4State)]
    return_addr := 300, trampoline_addr := 50, return_addr_width := 8
    shadow_view := 1, curr_mem_size := 1000000, allocCount := 0
    interrupted := false, effects := [], stackWrites := [] }

/-- Machine for the C7 witness, success side: the page at the entry point
holds its first `0xCC` byte at offset 3 (and another at offset 7). -/
def c7Mach : Machine :=
  { kv2p := fun v => v
    mem := fun a => if a = 0x1003 then 0xCC else if a = 0x1007 then 0xCC else 0
    valid := fun _ => true, ksym2v := fun _ => 0, dtbToPid := fun _ => 1
    lstar := 0x1000, allocs := fun _ => 5 }

/-- Machine for the C7 witness, failure side: no `0xCC` byte anywhere. -/
def c7MachNone : Machine :=
  { kv2p := fun v => v, mem := fun _ => 0x90, valid := fun _ => true
    ksym2v := fun _ => 0, dtbToPid := fun _ => 1, lstar := 0x1000
    allocs := fun _ => 5 }

/-- The page read by the C7 witness (success side). -/
def c7Code : List Nat := (c7Mach.readBytes 0x1000 GT_PAGE_SIZE).getD []

/-- The page read by the C7 witness (failure side). -/
def c7CodeNone : List Nat := (c7MachNone.readBytes 0x1000 GT_PAGE_SIZE).getD []

/-- Concrete state for the C5 witness: one in-flight call, thread id 600. -/
def c5State : SyscallState Unit :=
  { syscall_paddr_record :=
      { offset := 0, syscall_cb := fun _ _ d => d, sysret_cb := fun _ _ _ => ()
        data := () }
    data := (), thread_id := 600 }

def c5Loop : GTLoop Unit :=
  { mach :=
      { kv2p := fun v => v, mem := fun _ => 0, valid := fun _ => true
        ksym2v := fun _ => 0, dtbToPid := fun _ => 7, lstar := 0
        allocs := fun _ => 5 }
    page_translation := [], page_records := []
    ret_addr_mapping := [(600, c5State)]
    return_addr := 777, trampoline_addr := 50, return_addr_width := 8
    shadow_view := 1, curr_mem_size := 1000000, allocCount := 0
    interrupted := false, effects := [], stackWrites := [] }

/-- Concrete state for the C8 witness: the symbol resolver knows no
symbols at all. -/
def c8Loop : GTLoop Unit :=
  { mach :=
      { kv2p := fun v => v, mem := fun _ => 0, valid := fun _ => true
        ksym2v := fun _ => 0, dtbToPid := fun _ => 1, lstar := 0
        allocs := fun _ => 5 }
    page_translation := [], page_records := [], ret_addr_mapping := []
    return_addr := 300, trampoline_addr := 50, return_addr_width := 8
    shadow_view := 1, curr_mem_size := 1000000, allocCount := 0
    interrupted := false, effects := [], stackWrites := [] }

/-- The batch entry used by the C8 witness. -/
def c8Entry : GTSyscallCallback Unit :=
  { name := "sys_open", syscall_cb := fun _ _ d => d
    sysret_cb := fun _ _ _ => (), user_data := () }

/-- All pages recorded in `gt_page_record_collection` are writable.  The
install path itself establishes this invariant for every page record it
creates (the full-page copy to the shadow page must have succeeded). -/
def pagesWritable {P : Type} (loop : GTLoop P) : Prop :=
  ∀ p ∈ loop.page_records, ∀ i < GT_PAGE_SIZE,
    loop.mach.valid (pageAddr p.1 i) = true

/-- First callback pair for the C1 witness. -/
def c1Cb : Int → Nat → Unit → Unit := fun _ _ d => d

/-- Second callback pair for the C1 witness (discarded by the second
install). -/
def c1Cb2 : Int → Nat → Unit → Unit := fun _ _ _ => ()

/-- The record installed at VA `0x2000` in the C1 witness state. -/
def c1Record : PaddrRecord Unit :=
  { offset := 0, syscall_cb := c1Cb, sysret_cb := fun _ _ _ => (), data := () }

/-- Concrete state for the C1 witness: VA `0x2000` (frame 2) is trapped via
shadow frame 9. -/
def c1Loop : GTLoop Unit :=
  { mach :=
      { kv2p := fun v => v, mem := fun _ => 0, valid := fun _ => true
        ksym2v := fun _ => 0, dtbToPid := fun _ => 1, lstar := 0
        allocs := fun _ => 5 }
    page_translation := [(2, 9)]
    page_records := [(9, { frame := 2, shadow_frame := 9
                           children := [(0, c1Record)] })]
    ret_addr_mapping := [], return_addr := 300, trampoline_addr := 50
    return_addr_width := 8, shadow_view := 1, curr_mem_size := 1000000
    allocCount := 0, interrupted := false, effects := [], stackWrites := [] }

/-- The record already installed at VA `0x3000` in the C10 witness
state. -/
def c10Record : PaddrRecord Unit :=
  { offset := 0, syscall_cb := c1Cb, sysret_cb := fun _ _ _ => (), data := () }

/-- Concrete state for the C10 witness. -/
def c10Loop : GTLoop Unit :=
  { mach :=
      { kv2p := fun v => v, mem := fun _ => 0, valid := fun _ => true
        ksym2v := fun _ => 0, dtbToPid := fun _ => 1, lstar := 0
        allocs := fun _ => 5 }
    page_translation := [(3, 11)]
    page_records := [(11, { frame := 3, shadow_frame := 11
                            children := [(0, c10Record)] })]
    ret_addr_mapping := [], return_addr := 300, trampoline_addr := 50
    return_addr_width := 8, shadow_view := 1, curr_mem_size := 1000000
    allocCount := 0, interrupted := false, effects := [], stackWrites := [] }

/-- Concrete corresponding states for the C9 counterexample: both variants
have no breakpoint installed, the same trampoline address, the same
canonical return address, the same machine, and empty trackers. -/
def c9Loop : GTLoop Unit :=
  { mach :=
      { kv2p := fun v => v, mem := fun _ => 0, valid := fun _ => true
        ksym2v := fun _ => 0, dtbToPid := fun _ => 1, lstar := 0
        allocs := fun _ => 5 }
    page_translation := [], page_records := [], ret_addr_mapping := []
    return_addr := 300, trampoline_addr := 50, return_addr_width := 8
    shadow_view := 1, curr_mem_size := 1000000, allocCount := 0
    interrupted := false, effects := [], stackWrites := [] }

/-- The `vf_state` corresponding to `c9Loop`. -/
def c9Vf : VfState :=
  { mach :=
      { kv2p := fun v => v, mem := fun _ => 0, valid := fun _ => true
        ksym2v := fun _ => 0, dtbToPid := fun _ => 1, lstar := 0
        allocs := fun _ => 5 }
    vf_page_translation := [], vf_page_record_collection := []
    vf_ret_addr_mapping := [], shadow_view := 1, curr_mem_size := 1000000
    allocCount := 0, effects := [], stackWrites := []
    return_point_addr := 300, trampoline_addr := 50, junk := 0 }

/-- Shared machine for the C9 witness states. -/
def c9WMach : Machine :=
  { kv2p := fun v => v, mem := fun _ => 0, valid := fun _ => true
    ksym2v := fun _ => 0, dtbToPid := fun _ => 3, lstar := 0
    allocs := fun _ => 5 }

/-- In-flight call of the gt-side C9 witness state (thread id 100). -/
def c9WState : SyscallState Unit :=
  { syscall_paddr_record :=
      { offset := 0, syscall_cb := fun _ _ d => d, sysret_cb := fun _ _ _ => ()
        data := () }
    data := (), thread_id := 100 }

/-- In-flight call of the vf-side C9 witness state. -/
def c9WPr : VfPaddrRecord := { offset := 0, identifier := 2 }

def c9WLoop : GTLoop Unit :=
  { mach := c9WMach, page_translation := [], page_records := []
    ret_addr_mapping := [(100, c9WState)], return_addr := 300
    trampoline_addr := 50, return_addr_width := 8, shadow_view := 1
    curr_mem_size := 1000000, allocCount := 0, interrupted := false
    effects := [], stackWrites := [] }

def c9WVf : VfState :=
  { mach := c9WMach, vf_page_translation := [], vf_page_record_collection := []
    vf_ret_addr_mapping := [(100, c9WPr)], shadow_view := 1
    curr_mem_size := 1000000, allocCount := 0, effects := [], stackWrites := []
    return_point_addr := 300, trampoline_addr := 50, junk := 0 }

/-- The return-site trap event used by the C9 witness (rsp 108, so thread
id 100). -/
def c9WEv : TrapEvent := ⟨50, 108, 3, 2⟩

/-! ## Theorems -/

/-! ## Association lists standing for the GLib hash tables -/

/-! ## The engine's records (from `trace-syscalls.c`) -/

/-! ## `trace-syscalls.c` operations -/

/-! ## The trap dispatcher of `trace-syscalls.c` -/

/-! ## The identifier-based variant (`trace_syscalls.c`) -/

/-! ## Basic lemmas about the table and memory models -/

theorem alook_aset_self {α : Type} (l : AList α) (k : Nat) (v : α) :
    alook (aset l k v) k = some v := by
  simp [aset, alook]

theorem alook_aerase_ne {α : Type} (l : AList α) (k k' : Nat) (h : k ≠ k') :
    alook (aerase l k) k' = alook l k' := by
  induction l with
  | nil => rfl
  | cons p rest ih =>
    obtain ⟨pk, pv⟩ := p
    by_cases hp : pk = k
    · have h1 : aerase ((pk, pv) :: rest) k = aerase rest k := by
        simp [aerase, List.filter_cons, hp]
      rw [h1, ih, alook, if_neg (by rw [hp]; exact h)]
    · have h1 : aerase ((pk, pv) :: rest) k = (pk, pv) :: aerase rest k := by
        simp [aerase, List.filter_cons, hp]
      rw [h1, alook, alook, ih]

theorem alook_aset_ne {α : Type} (l : AList α) (k k' : Nat) (v : α)
    (h : k ≠ k') : alook (aset l k v) k' = alook l k' := by
  rw [aset, alook, if_neg h, alook_aerase_ne l k k' h]

theorem map_fst_aerase {α : Type} (l : AList α) (k : Nat) :
    (aerase l k).map Prod.fst = (l.map Prod.fst).filter (fun x => x != k) := by
  unfold aerase
  induction l with
  | nil => rfl
  | cons h t ih => by_cases hk : h.1 = k <;> simp [List.filter_cons, hk, ih]

theorem map_fst_aset {α : Type} (l : AList α) (k : Nat) (v : α) :
    (aset l k v).map Prod.fst = k :: (l.map Prod.fst).filter (fun x => x != k) := by
  simp [aset, map_fst_aerase]

theorem alook_isSome_iff_mem {α : Type} (l : AList α) (k : Nat) :
    (alook l k).isSome = true ↔ k ∈ l.map Prod.fst := by
  induction l with
  | nil => simp [alook]
  | cons p rest ih =>
    rw [alook]
    by_cases hp : p.1 = k
    · simp [hp]
    · simp only [if_neg hp, List.map_cons, List.mem_cons, ih]
      constructor
      · exact Or.inr
      · rintro (h | h)
        · exact absurd h.symm hp
        · exact h

theorem Machine.write64_valid (m : Machine) (pa v : Nat) :
    (m.write64 pa v).valid = m.valid := by
  unfold Machine.write64; split <;> rfl

theorem Machine.write64_kv2p (m : Machine) (pa v : Nat) :
    (m.write64 pa v).kv2p = m.kv2p := by
  unfold Machine.write64; split <;> rfl

theorem Machine.write64_mem_of_notin (m : Machine) (pa v x : Nat)
    (hx : ¬ (pa ≤ x ∧ x < pa + 8)) : (m.write64 pa v).mem x = m.mem x := by
  unfold Machine.write64
  split
  · simp [if_neg hx]
  · rfl

theorem Machine.write8_some_valid {m m' : Machine} {pa v : Nat}
    (h : m.write8 pa v = some m') : m'.valid = m.valid := by
  unfold Machine.write8 at h
  split at h
  · cases h; rfl
  · cases h

theorem Machine.write8_some_kv2p {m m' : Machine} {pa v : Nat}
    (h : m.write8 pa v = some m') : m'.kv2p = m.kv2p := by
  unfold Machine.write8 at h
  split at h
  · cases h; rfl
  · cases h

theorem Machine.write8_some_mem_ne {m m' : Machine} {pa v : Nat}
    (h : m.write8 pa v = some m') {x : Nat} (hx : x ≠ pa) :
    m'.mem x = m.mem x := by
  unfold Machine.write8 at h
  split at h
  · cases h; simp [if_neg hx]
  · cases h

theorem leBytes_congr {f g : Nat → Nat} {pa : Nat} :
    ∀ {n : Nat}, (∀ i < n, f (pa + i) = g (pa + i)) →
      leBytes f pa n = leBytes g pa n := by
  suffices H : ∀ (n pa' : Nat), (∀ i < n, f (pa' + i) = g (pa' + i)) →
      leBytes f pa' n = leBytes g pa' n by
    intro n h; exact H n pa h
  intro n
  induction n with
  | zero => intro pa' _; rfl
  | succ n ih =>
    intro pa' h
    rw [leBytes, leBytes]
    have h0 : f pa' = g pa' := by simpa using h 0 (Nat.succ_pos n)
    have ht : leBytes f (pa' + 1) n = leBytes g (pa' + 1) n := by
      refine ih (pa' + 1) ?_
      intro i hi
      have := h (i + 1) (Nat.succ_lt_succ hi)
      simpa [Nat.add_assoc, Nat.add_comm 1 i] using this
    rw [h0, ht]

theorem Machine.read64_congr (m m' : Machine) (pa : Nat)
    (hv : m'.valid = m.valid) (hm : ∀ i < 8, m'.mem (pa + i) = m.mem (pa + i)) :
    m'.read64 pa = m.read64 pa := by
  unfold Machine.read64 Machine.valid64
  rw [hv, leBytes_congr hm]

/-- The little-endian bytes of `v` written starting at relative position `k`
assemble back to the corresponding slice of `v`. -/
theorem leBytes_byteOf (v : Nat) :
    ∀ (n k pa : Nat) (g : Nat → Nat),
      (∀ i < n, g (pa + i) = byteOf v (k + i)) →
      leBytes g pa n = v / 256 ^ k % 256 ^ n := by
  intro n
  induction n with
  | zero => intro k pa g _; simp [leBytes, Nat.mod_one]
  | succ n ih =>
    intro k pa g h
    rw [leBytes]
    have h0 : g pa = v / 256 ^ k % 256 := by
      simpa [byteOf] using h 0 (Nat.succ_pos n)
    have ht : leBytes g (pa + 1) n = v / 256 ^ (k + 1) % 256 ^ n := by
      refine ih (k + 1) (pa + 1) g ?_
      intro i hi
      have := h (i + 1) (Nat.succ_lt_succ hi)
      simpa [Nat.add_assoc, Nat.add_comm 1 i] using this
    have hdiv : v / 256 ^ (k + 1) = v / 256 ^ k / 256 := by
      rw [pow_succ, Nat.div_div_eq_div_mul]
    have hmm : v / 256 ^ k % 256 % 256 = v / 256 ^ k % 256 :=
      Nat.mod_mod_of_dvd _ dvd_rfl
    rw [h0, ht, hdiv, hmm, pow_succ']
    exact (Nat.mod_mul).symm

theorem Machine.read64_write64_self (m : Machine) (pa v : Nat)
    (hv : m.valid64 pa = true) :
    (m.write64 pa v).read64 pa = some (v % M64) := by
  have hmem : ∀ i < 8, (m.write64 pa v).mem (pa + i) = byteOf v i := by
    intro i hi
    unfold Machine.write64
    rw [if_pos hv]
    show (if pa ≤ pa + i ∧ pa + i < pa + 8 then byteOf v (pa + i - pa)
          else m.mem (pa + i)) = byteOf v i
    rw [if_pos ⟨Nat.le_add_right pa i, by omega⟩]
    congr 1
    omega
  have hv2 : (m.write64 pa v).valid64 pa = true := by
    unfold Machine.valid64 at hv ⊢
    rw [Machine.write64_valid]
    exact hv
  unfold Machine.read64
  rw [if_pos hv2]
  have hle : leBytes (m.write64 pa v).mem pa 8 = v / 256 ^ 0 % 256 ^ 8 :=
    leBytes_byteOf v 8 0 pa _ (by intro i hi; rw [hmem i hi]; simp)
  rw [hle]
  congr 1
  norm_num [M64]

/-! ## C2: what `gt_destroy_page_record` does -/

theorem gt_remove_breakpoint_effects {P : Type} (loop : GTLoop P)
    (pr : PageRecord P) (r : PaddrRecord P) :
    (gt_remove_breakpoint loop pr r).effects = loop.effects := by
  unfold gt_remove_breakpoint
  split
  · rfl
  · split <;> rfl

theorem gt_remove_breakpoint_shadow_view {P : Type} (loop : GTLoop P)
    (pr : PageRecord P) (r : PaddrRecord P) :
    (gt_remove_breakpoint loop pr r).shadow_view = loop.shadow_view := by
  unfold gt_remove_breakpoint
  split
  · rfl
  · split <;> rfl

theorem destroy_children_effects {P : Type} (pr : PageRecord P) :
    ∀ (cs : AList (PaddrRecord P)) (l : GTLoop P),
      (cs.foldl (fun l p => gt_destroy_paddr_record l pr p.2) l).effects
        = l.effects := by
  intro cs
  induction cs with
  | nil => intro l; rfl
  | cons c rest ih =>
    intro l
    rw [List.foldl_cons, ih]
    exact gt_remove_breakpoint_effects l pr c.2

theorem destroy_children_shadow_view {P : Type} (pr : PageRecord P) :
    ∀ (cs : AList (PaddrRecord P)) (l : GTLoop P),
      (cs.foldl (fun l p => gt_destroy_paddr_record l pr p.2) l).shadow_view
        = l.shadow_view := by
  intro cs
  induction cs with
  | nil => intro l; rfl
  | cons c rest ih =>
    intro l
    rw [List.foldl_cons, ih]
    exact gt_remove_breakpoint_shadow_view l pr c.2

/-- C2 (amended): destroying a Page Record appends exactly three hypervisor
operations: disable the mem-access trap on the record's original frame in
the shadow view, change the shadow view's mapping of the record's *shadow*
frame (not the original frame) to the invalid gfn, and release the shadow
frame back to the domain. -/
theorem destroy_page_record_effects {P : Type} (loop : GTLoop P)
    (pr : PageRecord P) :
    (gt_destroy_page_record loop pr).effects
      = loop.effects
        ++ [Effect.setMemEvent pr.frame MemAccess.n loop.shadow_view,
            Effect.changeGfn loop.shadow_view pr.shadow_frame INVALID_GFN,
            Effect.decreaseReservation pr.shadow_frame] := by
  unfold gt_destroy_page_record GTLoop.emit
  simp only [destroy_children_effects, destroy_children_shadow_view,
    List.append_assoc, List.cons_append, List.nil_append]

/-- C2 counterexample: destroying the record for original frame 1 / shadow
frame 2 issues no SLAT change for the original frame 1 at all — the only
`changeGfn` issued targets the shadow frame 2 — even though the shadow
frame is released and the mem-access trap on frame 1 is disabled. -/
theorem destroy_page_record_counterexample :
    ((gt_destroy_page_record c2Loop c2PageRecord).effects.all
      (fun e => match e with
        | Effect.changeGfn _ oldGfn _ => oldGfn != 1
        | _ => true)) = true ∧
    Effect.changeGfn 7 2 INVALID_GFN ∈ (gt_destroy_page_record c2Loop c2PageRecord).effects ∧
    Effect.decreaseReservation 2 ∈ (gt_destroy_page_record c2Loop c2PageRecord).effects ∧
    Effect.setMemEvent 1 MemAccess.n 7 ∈ (gt_destroy_page_record c2Loop c2PageRecord).effects := by
  decide

/-! ## C6: stale traps are re-injected -/

/-- C6: a call-site trap whose faulting address has no breakpoint record is
re-injected: the dispatcher sets the re-inject flag, returns no response
flags, records nothing, and leaves the state untouched. -/
theorem stale_trap_reinjected {P : Type} (loop : GTLoop P) (ev : TrapEvent)
    (h1 : ev.gla ≠ loop.trampoline_addr)
    (h2 : gt_paddr_record_from_va loop ev.gla = none) :
    (gt_breakpoint_cb loop ev).reinject = true ∧
    (gt_breakpoint_cb loop ev).response = Response.none_ ∧
    (gt_breakpoint_cb loop ev).loop = loop ∧
    (gt_breakpoint_cb loop ev).entryCalls = [] ∧
    (gt_breakpoint_cb loop ev).retCalls = [] ∧
    (gt_breakpoint_cb loop ev).ripWrite = none := by
  unfold gt_breakpoint_cb
  rw [if_neg h1, h2]
  exact ⟨rfl, rfl, rfl, rfl, rfl, rfl⟩

theorem stale_trap_reinjected_witness :
    ((⟨60, 0, 0, 0⟩ : TrapEvent).gla ≠ c6Loop.trampoline_addr) ∧
    gt_paddr_record_from_va c6Loop (⟨60, 0, 0, 0⟩ : TrapEvent).gla = none ∧
    ((gt_breakpoint_cb c6Loop ⟨60, 0, 0, 0⟩).reinject = true ∧
     (gt_breakpoint_cb c6Loop ⟨60, 0, 0, 0⟩).response = Response.none_ ∧
     (gt_breakpoint_cb c6Loop ⟨60, 0, 0, 0⟩).loop = c6Loop ∧
     (gt_breakpoint_cb c6Loop ⟨60, 0, 0, 0⟩).entryCalls = [] ∧
     (gt_breakpoint_cb c6Loop ⟨60, 0, 0, 0⟩).retCalls = [] ∧
     (gt_breakpoint_cb c6Loop ⟨60, 0, 0, 0⟩).ripWrite = none) :=
  ⟨by decide, rfl, stale_trap_reinjected c6Loop ⟨60, 0, 0, 0⟩ (by decide) rfl⟩

/-! ## C3: call-site trap with an unexpected stack word -/

/-- C3: on a call-site trap whose breakpoint record exists but whose stack
word cannot be read or differs from the canonical return address, nothing
is recorded and nothing is written (the state is untouched), yet the
response still flips the VCPU to the unmodified view (slat 0) and enables
single-step. -/
theorem unexpected_stack_still_serviced {P : Type} (loop : GTLoop P)
    (ev : TrapEvent) (record : PaddrRecord P)
    (h1 : ev.gla ≠ loop.trampoline_addr)
    (h2 : gt_paddr_record_from_va loop ev.gla = some record)
    (h3 : entryChecksPass loop ev.rsp = false) :
    (gt_breakpoint_cb loop ev).loop = loop ∧
    (gt_breakpoint_cb loop ev).entryCalls = [] ∧
    (gt_breakpoint_cb loop ev).retCalls = [] ∧
    (gt_breakpoint_cb loop ev).response = Response.stepAndFlip ∧
    (gt_breakpoint_cb loop ev).slatId = some 0 ∧
    (gt_breakpoint_cb loop ev).reinject = false ∧
    (gt_breakpoint_cb loop ev).ripWrite = none := by
  have hout : gt_breakpoint_cb loop ev =
      { response := .stepAndFlip, reinject := false, slatId := some 0
        ripWrite := none, entryCalls := [], retCalls := [], loop := loop } := by
    unfold gt_breakpoint_cb
    rw [if_neg h1, h2]
    dsimp only
    unfold entryChecksPass at h3
    by_cases h0 : loop.mach.kv2p ev.rsp = 0
    · rw [if_pos h0]
    · rw [if_neg h0]
      rw [if_neg h0] at h3
      cases hr : loop.mach.read64 (loop.mach.kv2p ev.rsp) with
      | none => rfl
      | some w =>
        rw [hr] at h3
        dsimp only at h3 ⊢
        have hw : w ≠ loop.return_addr := by simpa using h3
        rw [if_pos hw]
  rw [hout]
  exact ⟨rfl, rfl, rfl, rfl, rfl, rfl, rfl⟩

theorem unexpected_stack_still_serviced_witness :
    ((⟨0x2000, 0x500, 0, 0⟩ : TrapEvent).gla ≠ c3Loop.trampoline_addr) ∧
    gt_paddr_record_from_va c3Loop (0x2000 : Nat) = some c3Record ∧
    entryChecksPass c3Loop (0x500 : Nat) = false ∧
    ((gt_breakpoint_cb c3Loop ⟨0x2000, 0x500, 0, 0⟩).loop = c3Loop ∧
     (gt_breakpoint_cb c3Loop ⟨0x2000, 0x500, 0, 0⟩).entryCalls = [] ∧
     (gt_breakpoint_cb c3Loop ⟨0x2000, 0x500, 0, 0⟩).retCalls = [] ∧
     (gt_breakpoint_cb c3Loop ⟨0x2000, 0x500, 0, 0⟩).response = Response.stepAndFlip ∧
     (gt_breakpoint_cb c3Loop ⟨0x2000, 0x500, 0, 0⟩).slatId = some 0 ∧
     (gt_breakpoint_cb c3Loop ⟨0x2000, 0x500, 0, 0⟩).reinject = false ∧
     (gt_breakpoint_cb c3Loop ⟨0x2000, 0x500, 0, 0⟩).ripWrite = none) :=
  ⟨by decide, rfl, by rfl,
   unexpected_stack_still_serviced c3Loop ⟨0x2000, 0x500, 0, 0⟩ c3Record
     (by decide) rfl (by rfl)⟩

/-! ## C4: return-site dispatch -/

theorem alook_aerase_self {α : Type} (l : AList α) (k : Nat) :
    alook (aerase l k) k = none := by
  induction l with
  | nil => rfl
  | cons p rest ih =>
    obtain ⟨pk, pv⟩ := p
    by_cases hp : pk = k
    · have h1 : aerase ((pk, pv) :: rest) k = aerase rest k := by
        simp [aerase, List.filter_cons, hp]
      rw [h1, ih]
    · have h1 : aerase ((pk, pv) :: rest) k = (pk, pv) :: aerase rest k := by
        simp [aerase, List.filter_cons, hp]
      rw [h1, alook, if_neg hp, ih]

theorem gt_restore_return_addr_mapping {P : Type} (loop : GTLoop P)
    (st : SyscallState P) :
    (gt_restore_return_addr loop st).ret_addr_mapping = loop.ret_addr_mapping := by
  unfold gt_restore_return_addr
  dsimp only
  split <;> rfl

theorem gt_restore_return_addr_return_addr {P : Type} (loop : GTLoop P)
    (st : SyscallState P) :
    (gt_restore_return_addr loop st).return_addr = loop.return_addr := by
  unfold gt_restore_return_addr
  dsimp only
  split <;> rfl

theorem gt_restore_return_addr_page_records {P : Type} (loop : GTLoop P)
    (st : SyscallState P) :
    (gt_restore_return_addr loop st).page_records = loop.page_records := by
  unfold gt_restore_return_addr
  dsimp only
  split <;> rfl

theorem gt_restore_return_addr_kv2p {P : Type} (loop : GTLoop P)
    (st : SyscallState P) :
    (gt_restore_return_addr loop st).mach.kv2p = loop.mach.kv2p := by
  unfold gt_restore_return_addr
  dsimp only
  split
  · rfl
  · exact Machine.write64_kv2p _ _ _

theorem gt_restore_return_addr_valid {P : Type} (loop : GTLoop P)
    (st : SyscallState P) :
    (gt_restore_return_addr loop st).mach.valid = loop.mach.valid := by
  unfold gt_restore_return_addr
  dsimp only
  split
  · rfl
  · exact Machine.write64_valid _ _ _

/-- C4: on a return-site trap (faulting address equals the trampoline), the
dispatcher computes the thread id as rsp minus the guest word width; when a
matching Call-State Entry exists, the return callback is invoked with the
payload saved at entry, the instruction pointer is directed to the
canonical return address, and the entry is removed from the tracker; when
no entry exists (event `ev'`), nothing is done at all. -/
theorem return_site_dispatch {P : Type} (loop : GTLoop P) (ev ev' : TrapEvent)
    (st : SyscallState P)
    (h : ev.gla = loop.trampoline_addr)
    (h' : ev'.gla = loop.trampoline_addr)
    (hst : alook loop.ret_addr_mapping (sub64 ev.rsp loop.return_addr_width)
            = some st)
    (hnone : alook loop.ret_addr_mapping (sub64 ev'.rsp loop.return_addr_width)
            = none) :
    (gt_breakpoint_cb loop ev).retCalls
        = [(loop.mach.dtbToPid ev.cr3, sub64 ev.rsp loop.return_addr_width,
            st.data)] ∧
    (gt_breakpoint_cb loop ev).ripWrite = some loop.return_addr ∧
    (gt_breakpoint_cb loop ev).loop.ret_addr_mapping
        = aerase loop.ret_addr_mapping (sub64 ev.rsp loop.return_addr_width) ∧
    alook (gt_breakpoint_cb loop ev).loop.ret_addr_mapping
        (sub64 ev.rsp loop.return_addr_width) = none ∧
    (gt_breakpoint_cb loop ev).response = Response.none_ ∧
    (gt_breakpoint_cb loop ev).entryCalls = [] ∧
    (gt_breakpoint_cb loop ev').loop = loop ∧
    (gt_breakpoint_cb loop ev').retCalls = [] ∧
    (gt_breakpoint_cb loop ev').ripWrite = none ∧
    (gt_breakpoint_cb loop ev').response = Response.none_ := by
  have hmap : (gt_breakpoint_cb loop ev).loop.ret_addr_mapping
      = aerase loop.ret_addr_mapping (sub64 ev.rsp loop.return_addr_width) := by
    unfold gt_breakpoint_cb
    rw [if_pos h]
    dsimp only
    rw [hst]
    unfold GTLoop.retRemove
    rw [hst]
    dsimp only
    rw [gt_restore_return_addr_mapping]
  refine ⟨?_, ?_, hmap, ?_, ?_, ?_, ?_, ?_, ?_, ?_⟩
  · unfold gt_breakpoint_cb
    rw [if_pos h]
    dsimp only
    rw [hst]
  · unfold gt_breakpoint_cb
    rw [if_pos h]
    dsimp only
    rw [hst]
  · rw [hmap]
    exact alook_aerase_self _ _
  · unfold gt_breakpoint_cb
    rw [if_pos h]
    dsimp only
    rw [hst]
  · unfold gt_breakpoint_cb
    rw [if_pos h]
    dsimp only
    rw [hst]
  · unfold gt_breakpoint_cb
    rw [if_pos h']
    dsimp only
    rw [hnone]
  · unfold gt_breakpoint_cb
    rw [if_pos h']
    dsimp only
    rw [hnone]
  · unfold gt_breakpoint_cb
    rw [if_pos h']
    dsimp only
    rw [hnone]
  · unfold gt_breakpoint_cb
    rw [if_pos h']
    dsimp only
    rw [hnone]

theorem return_site_dispatch_witness :
    ((⟨50, 108, 3, 0⟩ : TrapEvent).gla = c4Loop.trampoline_addr) ∧
    alook c4Loop.ret_addr_mapping (sub64 108 c4Loop.return_addr_width)
        = some c4State ∧
    alook c4Loop.ret_addr_mapping (sub64 9 c4Loop.return_addr_width) = none ∧
    ((gt_breakpoint_cb c4Loop ⟨50, 108, 3, 0⟩).retCalls
        = [(c4Loop.mach.dtbToPid 3, sub64 108 c4Loop.return_addr_width,
            c4State.data)] ∧
     (gt_breakpoint_cb c4Loop ⟨50, 108, 3, 0⟩).ripWrite
        = some c4Loop.return_addr ∧
     (gt_breakpoint_cb c4Loop ⟨50, 108, 3, 0⟩).loop.ret_addr_mapping
        = aerase c4Loop.ret_addr_mapping (sub64 108 c4Loop.return_addr_width) ∧
     alook (gt_breakpoint_cb c4Loop ⟨50, 108, 3, 0⟩).loop.ret_addr_mapping
        (sub64 108 c4Loop.return_addr_width) = none ∧
     (gt_breakpoint_cb c4Loop ⟨50, 108, 3, 0⟩).response = Response.none_ ∧
     (gt_breakpoint_cb c4Loop ⟨50, 108, 3, 0⟩).entryCalls = [] ∧
     (gt_breakpoint_cb c4Loop ⟨50, 9, 0, 0⟩).loop = c4Loop ∧
     (gt_breakpoint_cb c4Loop ⟨50, 9, 0, 0⟩).retCalls = [] ∧
     (gt_breakpoint_cb c4Loop ⟨50, 9, 0, 0⟩).ripWrite = none ∧
     (gt_breakpoint_cb c4Loop ⟨50, 9, 0, 0⟩).response = Response.none_) :=
  ⟨by decide, by rfl, by rfl,
   return_site_dispatch c4Loop ⟨50, 108, 3, 0⟩ ⟨50, 9, 0, 0⟩ c4State
     (by decide) (by decide) (by rfl) (by rfl)⟩

/-! ## C7: the trampoline locator -/

theorem readBytes_length (m : Machine) :
    ∀ (n pa : Nat) (bs : List Nat), m.readBytes pa n = some bs →
      bs.length = n := by
  intro n
  induction n with
  | zero =>
    intro pa bs h
    rw [Machine.readBytes] at h
    cases h
    rfl
  | succ n ih =>
    intro pa bs h
    rw [Machine.readBytes] at h
    cases h8 : m.read8 pa with
    | none => rw [h8] at h; cases h
    | some b =>
      rw [h8] at h
      cases hrest : m.readBytes ((pa + 1) % M64) n with
      | none => rw [hrest] at h; cases h
      | some rest =>
        rw [hrest] at h
        cases h
        simp [ih _ _ hrest]

theorem findBreakpointIdx_of_first :
    ∀ (code : List Nat) (i : Nat), code.get? i = some GT_BREAKPOINT_INST →
      (∀ j < i, code.get? j ≠ some GT_BREAKPOINT_INST) →
      findBreakpointIdx code = some i := by
  intro code
  induction code with
  | nil => intro i hi _; simp at hi
  | cons b rest ih =>
    intro i hi hmin
    cases i with
    | zero =>
      rw [List.get?] at hi
      cases hi
      rw [findBreakpointIdx, if_pos rfl]
    | succ n =>
      have hb : ¬ b = GT_BREAKPOINT_INST := by
        have h0 := hmin 0 (Nat.succ_pos n)
        intro hb
        exact h0 (by rw [List.get?, hb])
      rw [findBreakpointIdx, if_neg hb]
      have ht : findBreakpointIdx rest = some n := by
        refine ih n (by rw [List.get?] at hi; exact hi) ?_
        intro j hj
        have := hmin (j + 1) (Nat.succ_lt_succ hj)
        rw [List.get?] at this
        exact this
      rw [ht]
      rfl

theorem findBreakpointIdx_of_absent :
    ∀ (code : List Nat), GT_BREAKPOINT_INST ∉ code →
      findBreakpointIdx code = none := by
  intro code
  induction code with
  | nil => intro _; rfl
  | cons b rest ih =>
    intro h
    have hb : ¬ b = GT_BREAKPOINT_INST := by
      intro hb
      exact h (hb ▸ List.mem_cons_self b rest)
    rw [findBreakpointIdx, if_neg hb,
        ih (fun hm => h (List.mem_cons_of_mem b hm))]
    rfl

/-- C7: the trampoline locator reads exactly one page (`GT_PAGE_SIZE`
bytes) starting at the physical address of the `MSR_LSTAR` entry point; if
position `i` holds the first breakpoint byte `0xCC` of that page, the
locator returns the entry-point address plus `i` (and `i` lies inside the
page); if (machine `m'`) the page holds no breakpoint byte at all, the
locator returns `0`. -/
theorem trampoline_locator (m m' : Machine) (code code' : List Nat) (i : Nat)
    (hl : m.kv2p m.lstar ≠ 0)
    (hr : m.readBytes (m.kv2p m.lstar) GT_PAGE_SIZE = some code)
    (hi : code.get? i = some GT_BREAKPOINT_INST)
    (hmin : ∀ j < i, code.get? j ≠ some GT_BREAKPOINT_INST)
    (hl' : m'.kv2p m'.lstar ≠ 0)
    (hr' : m'.readBytes (m'.kv2p m'.lstar) GT_PAGE_SIZE = some code')
    (hnone : GT_BREAKPOINT_INST ∉ code') :
    gt_find_trampoline_addr m = (m.lstar + i) % M64 ∧
    i < GT_PAGE_SIZE ∧
    gt_find_trampoline_addr m' = 0 := by
  refine ⟨?_, ?_, ?_⟩
  · unfold gt_find_trampoline_addr
    dsimp only
    rw [if_neg hl, hr]
    dsimp only
    rw [findBreakpointIdx_of_first code i hi hmin]
  · have hlen : code.length = GT_PAGE_SIZE := readBytes_length m _ _ _ hr
    have : i < code.length := List.get?_eq_some.mp hi |>.1
    omega
  · unfold gt_find_trampoline_addr
    dsimp only
    rw [if_neg hl', hr']
    dsimp only
    rw [findBreakpointIdx_of_absent code' hnone]

theorem eq_some_getD {α : Type} (o : Option α) (d : α) (h : o.isSome = true) :
    o = some (o.getD d) := by
  cases o with
  | none => cases h
  | some v => rfl

theorem readBytes_isSome_of_valid (m : Machine) (hv : ∀ a, m.valid a = true) :
    ∀ (n pa : Nat), (m.readBytes pa n).isSome = true := by
  intro n
  induction n with
  | zero => intro pa; rfl
  | succ n ih =>
    intro pa
    rw [Machine.readBytes]
    have h8 : m.read8 pa = some (m.mem pa % 256) := by
      rw [Machine.read8, if_pos (hv pa)]
    rw [h8]
    cases hr : m.readBytes ((pa + 1) % M64) n with
    | none =>
      have := ih ((pa + 1) % M64)
      rw [hr] at this
      cases this
    | some rest => rfl

theorem readBytes_get? (m : Machine) :
    ∀ (n pa : Nat) (bs : List Nat), pa < M64 →
      m.readBytes pa n = some bs →
      ∀ i < n, bs.get? i = some (m.mem ((pa + i) % M64) % 256) := by
  intro n
  induction n with
  | zero =>
    intro pa bs _ _ i hi
    cases hi
  | succ n ih =>
    intro pa bs hpa h i hi
    rw [Machine.readBytes] at h
    cases h8 : m.read8 pa with
    | none => rw [h8] at h; cases h
    | some b =>
      rw [h8] at h
      cases hrest : m.readBytes ((pa + 1) % M64) n with
      | none => rw [hrest] at h; cases h
      | some rest =>
        rw [hrest] at h
        cases h
        cases i with
        | zero =>
          rw [Machine.read8] at h8
          split at h8
          · cases h8
            rw [List.get?]
            have : (pa + 0) % M64 = pa := by
              rw [Nat.add_zero, Nat.mod_eq_of_lt hpa]
            rw [this]
          · cases h8
        | succ j =>
          rw [List.get?]
          have hlt : (pa + 1) % M64 < M64 :=
            Nat.mod_lt _ (by norm_num [M64])
          have hrec := ih ((pa + 1) % M64) rest hlt hrest j
            (Nat.lt_of_succ_lt_succ hi)
          rw [hrec]
          have : ((pa + 1) % M64 + j) % M64 = (pa + (j + 1)) % M64 := by
            rw [Nat.mod_add_mod]
            congr 1
            omega
          rw [this]

theorem c7_hr : c7Mach.readBytes 0x1000 GT_PAGE_SIZE = some c7Code :=
  eq_some_getD _ []
    (readBytes_isSome_of_valid c7Mach (fun _ => rfl) GT_PAGE_SIZE 0x1000)

theorem c7_hrNone :
    c7MachNone.readBytes 0x1000 GT_PAGE_SIZE = some c7CodeNone :=
  eq_some_getD _ []
    (readBytes_isSome_of_valid c7MachNone (fun _ => rfl) GT_PAGE_SIZE 0x1000)

theorem c7_hi : c7Code.get? 3 = some GT_BREAKPOINT_INST := by
  have := readBytes_get? c7Mach GT_PAGE_SIZE 0x1000 c7Code (by norm_num [M64])
    c7_hr 3 (by norm_num [GT_PAGE_SIZE, GT_PAGE_OFFSET_BITS])
  rw [this]
  norm_num [M64, c7Mach, GT_BREAKPOINT_INST]

theorem c7_hmin : ∀ j < 3, c7Code.get? j ≠ some GT_BREAKPOINT_INST := by
  intro j hj
  have := readBytes_get? c7Mach GT_PAGE_SIZE 0x1000 c7Code (by norm_num [M64])
    c7_hr j (by norm_num [GT_PAGE_SIZE, GT_PAGE_OFFSET_BITS]; omega)
  rw [this]
  interval_cases j <;> norm_num [M64, c7Mach, GT_BREAKPOINT_INST]

theorem c7_hnone : GT_BREAKPOINT_INST ∉ c7CodeNone := by
  intro hmem
  obtain ⟨i, hig⟩ := List.get?_of_mem hmem
  have hilt : i < GT_PAGE_SIZE := by
    by_contra hge
    push_neg at hge
    have hlen : c7CodeNone.length = GT_PAGE_SIZE :=
      readBytes_length c7MachNone _ _ _ c7_hrNone
    rw [List.get?_eq_none.mpr (by omega)] at hig
    cases hig
  have := readBytes_get? c7MachNone GT_PAGE_SIZE 0x1000 c7CodeNone
    (by norm_num [M64]) c7_hrNone i hilt
  rw [this] at hig
  have : (0x90 : Nat) % 256 = GT_BREAKPOINT_INST := by
    injection hig
  norm_num [GT_BREAKPOINT_INST] at this

theorem trampoline_locator_witness :
    (c7Mach.kv2p c7Mach.lstar ≠ 0) ∧
    c7Mach.readBytes (c7Mach.kv2p c7Mach.lstar) GT_PAGE_SIZE = some c7Code ∧
    c7Code.get? 3 = some GT_BREAKPOINT_INST ∧
    (∀ j < 3, c7Code.get? j ≠ some GT_BREAKPOINT_INST) ∧
    (c7MachNone.kv2p c7MachNone.lstar ≠ 0) ∧
    c7MachNone.readBytes (c7MachNone.kv2p c7MachNone.lstar) GT_PAGE_SIZE
      = some c7CodeNone ∧
    GT_BREAKPOINT_INST ∉ c7CodeNone ∧
    (gt_find_trampoline_addr c7Mach = (c7Mach.lstar + 3) % M64 ∧
     3 < GT_PAGE_SIZE ∧
     gt_find_trampoline_addr c7MachNone = 0) :=
  ⟨by norm_num [c7Mach], c7_hr, c7_hi, c7_hmin, by norm_num [c7MachNone],
   c7_hrNone, c7_hnone,
   trampoline_locator c7Mach c7MachNone c7Code c7CodeNone 3
     (by norm_num [c7Mach]) c7_hr c7_hi c7_hmin (by norm_num [c7MachNone])
     c7_hrNone c7_hnone⟩

/-! ## C5: teardown restores every in-flight return slot -/

theorem read64_write64_disjoint (m : Machine) (pa pa' v : Nat)
    (hd : pa' + 8 ≤ pa ∨ pa + 8 ≤ pa') :
    (m.write64 pa' v).read64 pa = m.read64 pa := by
  apply Machine.read64_congr
  · exact Machine.write64_valid m pa' v
  · intro i hi
    apply Machine.write64_mem_of_notin
    omega

theorem read64_write8_notin {m m' : Machine} {a b : Nat} (pa : Nat)
    (h : m.write8 a b = some m') (ha : ¬ (pa ≤ a ∧ a < pa + 8)) :
    m'.read64 pa = m.read64 pa := by
  apply Machine.read64_congr
  · exact Machine.write8_some_valid h
  · intro i hi
    exact Machine.write8_some_mem_ne h (by omega)

theorem gt_restore_return_addr_valid64 {P : Type} (loop : GTLoop P)
    (st : SyscallState P) (pa : Nat) :
    (gt_restore_return_addr loop st).mach.valid64 pa
      = loop.mach.valid64 pa := by
  unfold Machine.valid64
  rw [gt_restore_return_addr_valid]

theorem restore_preserves_slot {P : Type} (l : GTLoop P) (st : SyscallState P)
    (pa : Nat)
    (hcond : l.mach.kv2p st.thread_id = 0 ∨ l.mach.kv2p st.thread_id = pa ∨
             l.mach.kv2p st.thread_id + 8 ≤ pa ∨
             pa + 8 ≤ l.mach.kv2p st.thread_id)
    (hgood : l.mach.read64 pa = some (l.return_addr % M64)) :
    (gt_restore_return_addr l st).mach.read64 pa
      = some ((gt_restore_return_addr l st).return_addr % M64) := by
  rw [gt_restore_return_addr_return_addr]
  unfold gt_restore_return_addr
  dsimp only
  by_cases h0 : l.mach.kv2p st.thread_id = 0
  · rw [if_pos h0]
    exact hgood
  · rw [if_neg h0]
    dsimp only
    rcases hcond with h | h | h | h
    · exact absurd h h0
    · rw [h]
      have hv : l.mach.valid64 pa = true := by
        by_contra hv
        have hn : l.mach.read64 pa = none := by
          rw [Machine.read64, if_neg hv]
        rw [hn] at hgood
        cases hgood
      exact Machine.read64_write64_self _ _ _ hv
    · rw [read64_write64_disjoint _ pa _ _ (Or.inl h)]
      exact hgood
    · rw [read64_write64_disjoint _ pa _ _ (Or.inr h)]
      exact hgood

theorem restore_establishes_slot {P : Type} (l : GTLoop P) (st : SyscallState P)
    (pa : Nat) (hpa : l.mach.kv2p st.thread_id = pa) (h0 : pa ≠ 0)
    (hv : l.mach.valid64 pa = true) :
    (gt_restore_return_addr l st).mach.read64 pa
      = some ((gt_restore_return_addr l st).return_addr % M64) := by
  rw [gt_restore_return_addr_return_addr]
  unfold gt_restore_return_addr
  dsimp only
  rw [hpa, if_neg h0]
  dsimp only
  exact Machine.read64_write64_self _ _ _ hv

theorem fold_restore_kv2p {P : Type} :
    ∀ (entries : List (Nat × SyscallState P)) (l : GTLoop P),
      (entries.foldl (fun l p => gt_restore_return_addr l p.2) l).mach.kv2p
        = l.mach.kv2p := by
  intro entries
  induction entries with
  | nil => intro l; rfl
  | cons e rest ih =>
    intro l
    rw [List.foldl_cons, ih, gt_restore_return_addr_kv2p]

theorem fold_restore_return_addr {P : Type} :
    ∀ (entries : List (Nat × SyscallState P)) (l : GTLoop P),
      (entries.foldl (fun l p => gt_restore_return_addr l p.2) l).return_addr
        = l.return_addr := by
  intro entries
  induction entries with
  | nil => intro l; rfl
  | cons e rest ih =>
    intro l
    rw [List.foldl_cons, ih, gt_restore_return_addr_return_addr]

theorem fold_restore_page_records {P : Type} :
    ∀ (entries : List (Nat × SyscallState P)) (l : GTLoop P),
      (entries.foldl (fun l p => gt_restore_return_addr l p.2) l).page_records
        = l.page_records := by
  intro entries
  induction entries with
  | nil => intro l; rfl
  | cons e rest ih =>
    intro l
    rw [List.foldl_cons, ih, gt_restore_return_addr_page_records]

theorem fold_restore_preserves_slot {P : Type} (pa : Nat) :
    ∀ (entries : List (Nat × SyscallState P)) (l : GTLoop P),
      (∀ p ∈ entries,
        l.mach.kv2p p.2.thread_id = 0 ∨ l.mach.kv2p p.2.thread_id = pa ∨
        l.mach.kv2p p.2.thread_id + 8 ≤ pa ∨
        pa + 8 ≤ l.mach.kv2p p.2.thread_id) →
      l.mach.read64 pa = some (l.return_addr % M64) →
      (entries.foldl (fun l p => gt_restore_return_addr l p.2) l).mach.read64 pa
        = some
          ((entries.foldl (fun l p => gt_restore_return_addr l p.2) l).return_addr
            % M64) := by
  intro entries
  induction entries with
  | nil =>
    intro l _ hgood
    exact hgood
  | cons e rest ih =>
    intro l hc hgood
    rw [List.foldl_cons]
    apply ih
    · intro p hp
      rw [gt_restore_return_addr_kv2p]
      exact hc p (List.mem_cons_of_mem e hp)
    · exact restore_preserves_slot l e.2 pa (hc e (List.mem_cons_self e rest)) hgood

theorem fold_restore_establish_slot {P : Type} (pa : Nat) :
    ∀ (entries : List (Nat × SyscallState P)) (l : GTLoop P)
      (e : Nat × SyscallState P),
      e ∈ entries →
      l.mach.kv2p e.2.thread_id = pa → pa ≠ 0 →
      l.mach.valid64 pa = true →
      (∀ p ∈ entries,
        l.mach.kv2p p.2.thread_id = 0 ∨ l.mach.kv2p p.2.thread_id = pa ∨
        l.mach.kv2p p.2.thread_id + 8 ≤ pa ∨
        pa + 8 ≤ l.mach.kv2p p.2.thread_id) →
      (entries.foldl (fun l p => gt_restore_return_addr l p.2) l).mach.read64 pa
        = some
          ((entries.foldl (fun l p => gt_restore_return_addr l p.2) l).return_addr
            % M64) := by
  intro entries
  induction entries with
  | nil =>
    intro l e he
    cases he
  | cons hd rest ih =>
    intro l e he hpa h0 hv hc
    rw [List.foldl_cons]
    rcases List.mem_cons.mp he with he | he
    · apply fold_restore_preserves_slot
      · intro p hp
        rw [gt_restore_return_addr_kv2p]
        exact hc p (List.mem_cons_of_mem hd hp)
      · exact restore_establishes_slot l hd.2 pa (he ▸ hpa) h0 hv
    · apply ih _ e he
      · rw [gt_restore_return_addr_kv2p]
        exact hpa
      · exact h0
      · rw [gt_restore_return_addr_valid64]
        exact hv
      · intro p hp
        rw [gt_restore_return_addr_kv2p]
        exact hc p (List.mem_cons_of_mem hd hp)

theorem gt_remove_breakpoint_read64 {P : Type} (l : GTLoop P)
    (pr : PageRecord P) (r : PaddrRecord P) (pa : Nat)
    (ha : ¬ (pa ≤ pageAddr pr.shadow_frame r.offset ∧
             pageAddr pr.shadow_frame r.offset < pa + 8)) :
    (gt_remove_breakpoint l pr r).mach.read64 pa = l.mach.read64 pa := by
  unfold gt_remove_breakpoint
  cases h8 : l.mach.read8 (pageAddr pr.frame r.offset) with
  | none => rfl
  | some b =>
    dsimp only
    cases hw : l.mach.write8 (pageAddr pr.shadow_frame r.offset) b with
    | none => rfl
    | some m' =>
      dsimp only
      exact read64_write8_notin pa hw ha

theorem gt_remove_breakpoint_ret_addr_mapping {P : Type} (l : GTLoop P)
    (pr : PageRecord P) (r : PaddrRecord P) :
    (gt_remove_breakpoint l pr r).ret_addr_mapping = l.ret_addr_mapping := by
  unfold gt_remove_breakpoint
  split
  · rfl
  · split <;> rfl

theorem gt_remove_breakpoint_return_addr {P : Type} (l : GTLoop P)
    (pr : PageRecord P) (r : PaddrRecord P) :
    (gt_remove_breakpoint l pr r).return_addr = l.return_addr := by
  unfold gt_remove_breakpoint
  split
  · rfl
  · split <;> rfl

theorem destroy_children_read64 {P : Type} (pr : PageRecord P) (pa : Nat) :
    ∀ (cs : AList (PaddrRecord P)) (l : GTLoop P),
      (∀ c ∈ cs, ¬ (pa ≤ pageAddr pr.shadow_frame c.2.offset ∧
                    pageAddr pr.shadow_frame c.2.offset < pa + 8)) →
      (cs.foldl (fun l p => gt_destroy_paddr_record l pr p.2) l).mach.read64 pa
        = l.mach.read64 pa := by
  intro cs
  induction cs with
  | nil => intro l _; rfl
  | cons c rest ih =>
    intro l hc
    rw [List.foldl_cons, ih _ (fun c' hc' => hc c' (List.mem_cons_of_mem c hc'))]
    exact gt_remove_breakpoint_read64 l pr c.2 pa (hc c (List.mem_cons_self c rest))

theorem destroy_children_return_addr {P : Type} (pr : PageRecord P) :
    ∀ (cs : AList (PaddrRecord P)) (l : GTLoop P),
      (cs.foldl (fun l p => gt_destroy_paddr_record l pr p.2) l).return_addr
        = l.return_addr := by
  intro cs
  induction cs with
  | nil => intro l; rfl
  | cons c rest ih =>
    intro l
    rw [List.foldl_cons, ih]
    exact gt_remove_breakpoint_return_addr l pr c.2

theorem destroy_children_ret_addr_mapping {P : Type} (pr : PageRecord P) :
    ∀ (cs : AList (PaddrRecord P)) (l : GTLoop P),
      (cs.foldl (fun l p => gt_destroy_paddr_record l pr p.2) l).ret_addr_mapping
        = l.ret_addr_mapping := by
  intro cs
  induction cs with
  | nil => intro l; rfl
  | cons c rest ih =>
    intro l
    rw [List.foldl_cons, ih]
    exact gt_remove_breakpoint_ret_addr_mapping l pr c.2

theorem gt_destroy_page_record_read64 {P : Type} (l : GTLoop P)
    (pr : PageRecord P) (pa : Nat)
    (hc : ∀ c ∈ pr.children, ¬ (pa ≤ pageAddr pr.shadow_frame c.2.offset ∧
                                pageAddr pr.shadow_frame c.2.offset < pa + 8)) :
    (gt_destroy_page_record l pr).mach.read64 pa = l.mach.read64 pa := by
  unfold gt_destroy_page_record GTLoop.emit
  dsimp only
  exact destroy_children_read64 pr pa pr.children l hc

theorem gt_destroy_page_record_return_addr {P : Type} (l : GTLoop P)
    (pr : PageRecord P) :
    (gt_destroy_page_record l pr).return_addr = l.return_addr := by
  unfold gt_destroy_page_record GTLoop.emit
  dsimp only
  exact destroy_children_return_addr pr pr.children l

theorem gt_destroy_page_record_ret_addr_mapping {P : Type} (l : GTLoop P)
    (pr : PageRecord P) :
    (gt_destroy_page_record l pr).ret_addr_mapping = l.ret_addr_mapping := by
  unfold gt_destroy_page_record GTLoop.emit
  dsimp only
  exact destroy_children_ret_addr_mapping pr pr.children l

theorem destroy_pages_read64 {P : Type} (pa : Nat) :
    ∀ (qs : AList (PageRecord P)) (l : GTLoop P),
      (∀ q ∈ qs, ∀ c ∈ q.2.children,
        ¬ (pa ≤ pageAddr q.2.shadow_frame c.2.offset ∧
           pageAddr q.2.shadow_frame c.2.offset < pa + 8)) →
      (qs.foldl (fun l q => gt_destroy_page_record l q.2) l).mach.read64 pa
        = l.mach.read64 pa := by
  intro qs
  induction qs with
  | nil => intro l _; rfl
  | cons q rest ih =>
    intro l hq
    rw [List.foldl_cons, ih _ (fun q' hq' => hq q' (List.mem_cons_of_mem q hq'))]
    exact gt_destroy_page_record_read64 l q.2 pa (hq q (List.mem_cons_self q rest))

theorem destroy_pages_return_addr {P : Type} :
    ∀ (qs : AList (PageRecord P)) (l : GTLoop P),
      (qs.foldl (fun l q => gt_destroy_page_record l q.2) l).return_addr
        = l.return_addr := by
  intro qs
  induction qs with
  | nil => intro l; rfl
  | cons q rest ih =>
    intro l
    rw [List.foldl_cons, ih, gt_destroy_page_record_return_addr]

theorem destroy_pages_ret_addr_mapping {P : Type} :
    ∀ (qs : AList (PageRecord P)) (l : GTLoop P),
      (qs.foldl (fun l q => gt_destroy_page_record l q.2) l).ret_addr_mapping
        = l.ret_addr_mapping := by
  intro qs
  induction qs with
  | nil => intro l; rfl
  | cons q rest ih =>
    intro l
    rw [List.foldl_cons, ih, gt_destroy_page_record_ret_addr_mapping]

/-- C5: at teardown (`gt_loop_quit`), for a Call-State Entry `(tid, st)`
still in the tracker whose saved thread id translates to a readable slot,
the canonical return address is written back into that slot (its 64-bit
slots are pairwise identical or disjoint across entries, and no shadow-byte
restoration overlaps it); afterwards the tracker is empty and the
interrupted flag is set. -/
theorem teardown_restores_stacks {P : Type} (loop : GTLoop P) (tid : Nat)
    (st : SyscallState P)
    (hmem : (tid, st) ∈ loop.ret_addr_mapping)
    (hpa : loop.mach.kv2p st.thread_id ≠ 0)
    (hv : loop.mach.valid64 (loop.mach.kv2p st.thread_id) = true)
    (hothers : ∀ p ∈ loop.ret_addr_mapping,
        loop.mach.kv2p p.2.thread_id = 0 ∨
        loop.mach.kv2p p.2.thread_id = loop.mach.kv2p st.thread_id ∨
        loop.mach.kv2p p.2.thread_id + 8 ≤ loop.mach.kv2p st.thread_id ∨
        loop.mach.kv2p st.thread_id + 8 ≤ loop.mach.kv2p p.2.thread_id)
    (hpages : ∀ q ∈ loop.page_records, ∀ c ∈ q.2.children,
        ¬ (loop.mach.kv2p st.thread_id ≤ pageAddr q.2.shadow_frame c.2.offset ∧
           pageAddr q.2.shadow_frame c.2.offset
             < loop.mach.kv2p st.thread_id + 8)) :
    (gt_loop_quit loop).mach.read64 (loop.mach.kv2p st.thread_id)
        = some (loop.return_addr % M64) ∧
    (gt_loop_quit loop).ret_addr_mapping = [] ∧
    (gt_loop_quit loop).interrupted = true := by
  have hpr := fold_restore_page_records (P := P) loop.ret_addr_mapping
    { loop with
        effects := loop.effects ++ [Effect.pauseVM]
        page_translation := ([] : AList Nat) }
  have hA := fold_restore_establish_slot (P := P) (loop.mach.kv2p st.thread_id)
    loop.ret_addr_mapping
    { loop with
        effects := loop.effects ++ [Effect.pauseVM]
        page_translation := ([] : AList Nat) }
    (tid, st) hmem rfl hpa hv hothers
  unfold gt_loop_quit GTLoop.retRemoveAll GTLoop.pageRecordsRemoveAll GTLoop.emit
  dsimp only
  refine ⟨?_, ?_, rfl⟩
  · rw [destroy_pages_read64 _ _ _ ?hq]
    case hq =>
      intro q hq c hc
      rw [hpr] at hq
      exact hpages q hq c hc
    dsimp only
    rw [hA, fold_restore_return_addr]
  · rw [destroy_pages_ret_addr_mapping]

theorem teardown_restores_stacks_witness :
    ((600, c5State) ∈ c5Loop.ret_addr_mapping) ∧
    (c5Loop.mach.kv2p c5State.thread_id ≠ 0) ∧
    c5Loop.mach.valid64 (c5Loop.mach.kv2p c5State.thread_id) = true ∧
    ((gt_loop_quit c5Loop).mach.read64 (c5Loop.mach.kv2p c5State.thread_id)
        = some (c5Loop.return_addr % M64) ∧
     (gt_loop_quit c5Loop).ret_addr_mapping = [] ∧
     (gt_loop_quit c5Loop).interrupted = true) :=
  ⟨List.mem_cons_self _ _, by decide, by decide,
   teardown_restores_stacks c5Loop 600 c5State (List.mem_cons_self _ _)
     (by decide) (by decide)
     (by
       intro p hp
       rcases List.mem_cons.mp hp with h | h
       · right; left; rw [h]
       · cases h)
     (by
       intro q hq
       cases hq)⟩

/-! ## C8: per-entry failure and success counting in `gt_loop_set_cbs` -/

theorem set_cbs_count {P : Type} :
    ∀ (es : List (GTSyscallCallback P)) (loop : GTLoop P),
      (gt_loop_set_cbs loop es).1 = (gt_set_cb_results loop es).count true := by
  intro es
  induction es with
  | nil => intro loop; rfl
  | cons e rest ih =>
    intro loop
    rw [gt_loop_set_cbs, gt_set_cb_results]
    by_cases h : loop.interrupted
    · rw [if_pos h, if_pos h]
      rfl
    · rw [if_neg h, if_neg h]
      dsimp only
      cases hcb : gt_loop_set_cb loop e.name e.syscall_cb e.sysret_cb e.user_data with
      | mk ok loop' =>
        dsimp only
        rw [ih loop']
        cases ok <;> simp [List.count_cons, Nat.add_comm]

theorem gt_allocate_shadow_frame_interrupted {P : Type} (loop : GTLoop P) :
    ((gt_allocate_shadow_frame loop).2).interrupted = loop.interrupted := by
  unfold gt_allocate_shadow_frame GTLoop.emit
  dsimp only
  split <;> rfl

theorem gt_setup_shadow_interrupted {P : Type} (loop : GTLoop P) (frame : Nat) :
    ((gt_setup_shadow loop frame).2).interrupted = loop.interrupted := by
  unfold gt_setup_shadow GTLoop.emit
  cases alook loop.page_translation frame with
  | some shadow => rfl
  | none =>
    dsimp only
    cases halloc : gt_allocate_shadow_frame loop with
    | mk shadow l1 =>
      have := gt_allocate_shadow_frame_interrupted loop
      rw [halloc] at this
      dsimp only
      split
      · exact this
      · exact this

theorem gt_setup_page_record_interrupted {P : Type} (loop : GTLoop P)
    (frame shadow : Nat) :
    ((gt_setup_page_record loop frame shadow).2).interrupted
      = loop.interrupted := by
  unfold gt_setup_page_record GTLoop.emit
  cases alook loop.page_records shadow with
  | some page_record => rfl
  | none =>
    dsimp only
    cases loop.mach.readBytes (pageAddr frame 0) GT_PAGE_SIZE with
    | none => rfl
    | some buff =>
      dsimp only
      cases loop.mach.writeBytes (pageAddr shadow 0) buff with
      | none => rfl
      | some m => rfl

theorem gt_setup_mem_trap_interrupted {P : Type} (loop : GTLoop P) (va : Nat)
    (scb : Int → Nat → P → P) (rcb : Int → Nat → P → Unit) (d : P) :
    ((gt_setup_mem_trap loop va scb rcb d).2).interrupted = loop.interrupted := by
  unfold gt_setup_mem_trap
  dsimp only
  split
  · rfl
  · cases hs : gt_setup_shadow loop (loop.mach.kv2p va / GT_PAGE_SIZE) with
    | mk r1 l1 =>
      have h1 := gt_setup_shadow_interrupted loop (loop.mach.kv2p va / GT_PAGE_SIZE)
      rw [hs] at h1
      cases r1 with
      | none => exact h1
      | some shadow =>
        dsimp only
        cases hp : gt_setup_page_record l1 (loop.mach.kv2p va / GT_PAGE_SIZE) shadow with
        | mk r2 l2 =>
          have h2 := gt_setup_page_record_interrupted l1
            (loop.mach.kv2p va / GT_PAGE_SIZE) shadow
          rw [hp] at h2
          cases r2 with
          | none => exact h1 ▸ h2
          | some pr =>
            obtain ⟨page_record, isNew⟩ := pr
            dsimp only
            cases (if isNew then none
                   else alook page_record.children (loop.mach.kv2p va % GT_PAGE_SIZE)) with
            | some existing => exact h1 ▸ h2
            | none =>
              dsimp only
              cases l2.mach.write8
                  (pageAddr shadow (loop.mach.kv2p va % GT_PAGE_SIZE))
                  GT_BREAKPOINT_INST with
              | none => exact h1 ▸ h2
              | some m => exact h1 ▸ h2

theorem gt_setup_mem_trap_interrupted' {P : Type} (loop l2 : GTLoop P)
    (va : Nat) (scb : Int → Nat → P → P) (rcb : Int → Nat → P → Unit) (d : P)
    (r : Option (PaddrRecord P))
    (h : gt_setup_mem_trap loop va scb rcb d = (r, l2)) :
    l2.interrupted = loop.interrupted := by
  have hi := gt_setup_mem_trap_interrupted loop va scb rcb d
  rw [h] at hi
  exact hi

theorem gt_loop_set_cb_interrupted {P : Type} (loop : GTLoop P) (name : String)
    (scb : Int → Nat → P → P) (rcb : Int → Nat → P → Unit) (d : P) :
    ((gt_loop_set_cb loop name scb rcb d).2).interrupted = loop.interrupted := by
  unfold gt_loop_set_cb GTLoop.emit
  dsimp only
  split
  · rfl
  · split
    · next l2 heq =>
      have h2 := gt_setup_mem_trap_interrupted' _ _ _ _ _ _ _ heq
      exact h2
    · next x l2 heq =>
      have h2 := gt_setup_mem_trap_interrupted' _ _ _ _ _ _ _ heq
      exact h2

theorem set_cb_results_length {P : Type} :
    ∀ (es : List (GTSyscallCallback P)) (loop : GTLoop P),
      loop.interrupted = false →
      (gt_set_cb_results loop es).length = es.length := by
  intro es
  induction es with
  | nil => intro loop _; rfl
  | cons e rest ih =>
    intro loop h
    rw [gt_set_cb_results, if_neg (by rw [h]; exact Bool.false_ne_true)]
    dsimp only
    cases hcb : gt_loop_set_cb loop e.name e.syscall_cb e.sysret_cb e.user_data with
    | mk ok loop' =>
      dsimp only
      rw [List.length_cons]
      have hpres := gt_loop_set_cb_interrupted loop e.name e.syscall_cb
        e.sysret_cb e.user_data
      rw [hcb] at hpres
      rw [ih loop' (by rw [hpres]; exact h), List.length_cons]

theorem set_cb_symbol_unresolved {P : Type} (loop : GTLoop P)
    (e : GTSyscallCallback P) (h0 : loop.mach.ksym2v e.name = 0) :
    gt_loop_set_cb loop e.name e.syscall_cb e.sysret_cb e.user_data
      = (false,
         { loop with
             effects := loop.effects ++ [Effect.pauseVM, Effect.resumeVM] }) := by
  unfold gt_loop_set_cb GTLoop.emit
  dsimp only
  rw [if_pos h0]
  simp [List.append_assoc]

/-- C8: `gt_loop_set_cbs` returns exactly the number of per-entry successes
(the batch is fully traversed when not interrupted, one outcome per entry),
and an entry whose kernel symbol resolves to 0 fails inside
`gt_loop_set_cb` before `gt_setup_mem_trap` runs: the tables, the
allocation counter, the memory — everything except the pause/resume trace
— are untouched. -/
theorem set_cbs_batch_behaviour {P : Type} (loop : GTLoop P)
    (es : List (GTSyscallCallback P)) (e : GTSyscallCallback P)
    (hint : loop.interrupted = false)
    (h0 : loop.mach.ksym2v e.name = 0) :
    (gt_loop_set_cbs loop es).1 = (gt_set_cb_results loop es).count true ∧
    (gt_set_cb_results loop es).length = es.length ∧
    gt_loop_set_cb loop e.name e.syscall_cb e.sysret_cb e.user_data
      = (false,
         { loop with
             effects := loop.effects ++ [Effect.pauseVM, Effect.resumeVM] }) :=
  ⟨set_cbs_count es loop, set_cb_results_length es loop hint,
   set_cb_symbol_unresolved loop e h0⟩

theorem set_cbs_batch_behaviour_witness :
    c8Loop.interrupted = false ∧
    c8Loop.mach.ksym2v c8Entry.name = 0 ∧
    ((gt_loop_set_cbs c8Loop [c8Entry]).1
        = (gt_set_cb_results c8Loop [c8Entry]).count true ∧
     (gt_set_cb_results c8Loop [c8Entry]).length = [c8Entry].length ∧
     gt_loop_set_cb c8Loop c8Entry.name c8Entry.syscall_cb c8Entry.sysret_cb
        c8Entry.user_data
      = (false,
         { c8Loop with
             effects := c8Loop.effects ++ [Effect.pauseVM, Effect.resumeVM] })) :=
  ⟨rfl, rfl, set_cbs_batch_behaviour c8Loop [c8Entry] c8Entry rfl rfl⟩

/-! ## C1 and C10: the install operation is idempotent -/

theorem alook_mem {α : Type} :
    ∀ (l : AList α) (k : Nat) (v : α), alook l k = some v → (k, v) ∈ l := by
  intro l
  induction l with
  | nil => intro k v h; cases h
  | cons p rest ih =>
    intro k v h
    obtain ⟨pk, pv⟩ := p
    rw [alook] at h
    by_cases hp : pk = k
    · rw [if_pos hp] at h
      injection h with h
      subst hp h
      exact List.mem_cons_self _ _
    · rw [if_neg hp] at h
      exact List.mem_cons_of_mem _ (ih k v h)

theorem Machine.write8_some_valid_at {m m' : Machine} {pa v : Nat}
    (h : m.write8 pa v = some m') : m.valid pa = true := by
  unfold Machine.write8 at h
  split at h
  · next hv => exact hv
  · cases h

theorem Machine.writeBytes_fields :
    ∀ (bs : List Nat) (m m' : Machine) (pa : Nat),
      m.writeBytes pa bs = some m' →
      m'.kv2p = m.kv2p ∧ m'.valid = m.valid := by
  intro bs
  induction bs with
  | nil =>
    intro m m' pa h
    rw [Machine.writeBytes] at h
    injection h with h
    subst h
    exact ⟨rfl, rfl⟩
  | cons b rest ih =>
    intro m m' pa h
    rw [Machine.writeBytes] at h
    cases hw : m.write8 pa b with
    | none => rw [hw] at h; cases h
    | some m1 =>
      rw [hw] at h
      obtain ⟨hk, hv⟩ := ih m1 m' ((pa + 1) % M64) h
      exact ⟨hk.trans (Machine.write8_some_kv2p hw),
             hv.trans (Machine.write8_some_valid hw)⟩

theorem Machine.writeBytes_addr_valid :
    ∀ (bs : List Nat) (m m' : Machine) (pa : Nat), pa < M64 →
      m.writeBytes pa bs = some m' →
      ∀ i < bs.length, m.valid ((pa + i) % M64) = true := by
  intro bs
  induction bs with
  | nil =>
    intro m m' pa _ _ i hi
    cases hi
  | cons b rest ih =>
    intro m m' pa hpa h i hi
    rw [Machine.writeBytes] at h
    cases hw : m.write8 pa b with
    | none => rw [hw] at h; cases h
    | some m1 =>
      rw [hw] at h
      cases i with
      | zero =>
        have : (pa + 0) % M64 = pa := by
          rw [Nat.add_zero, Nat.mod_eq_of_lt hpa]
        rw [this]
        exact Machine.write8_some_valid_at hw
      | succ j =>
        have hlt : (pa + 1) % M64 < M64 := Nat.mod_lt _ (by norm_num [M64])
        have hv1 := ih m1 m' ((pa + 1) % M64) hlt h j
          (Nat.lt_of_succ_lt_succ hi)
        rw [Machine.write8_some_valid hw] at hv1
        have : ((pa + 1) % M64 + j) % M64 = (pa + (j + 1)) % M64 := by
          rw [Nat.mod_add_mod]
          congr 1
          omega
        rw [← this]
        exact hv1

theorem pageAddr_lt (frame offset : Nat) : pageAddr frame offset < M64 :=
  Nat.mod_lt _ (by norm_num [M64])

theorem pageAddr_shift (shadow i : Nat) :
    (pageAddr shadow 0 + i) % M64 = pageAddr shadow i := by
  unfold pageAddr
  rw [Nat.mod_add_mod]
  have h : shadow * GT_PAGE_SIZE + 0 + i = shadow * GT_PAGE_SIZE + i := by omega
  rw [h]

theorem GTLoop.emit_page_translation {P : Type} (l : GTLoop P) (e : Effect) :
    (l.emit e).page_translation = l.page_translation := rfl

theorem GTLoop.emit_page_records {P : Type} (l : GTLoop P) (e : Effect) :
    (l.emit e).page_records = l.page_records := rfl

theorem GTLoop.emit_mach {P : Type} (l : GTLoop P) (e : Effect) :
    (l.emit e).mach = l.mach := rfl

theorem gt_allocate_shadow_frame_fields {P : Type} (loop : GTLoop P) :
    ((gt_allocate_shadow_frame loop).2).mach = loop.mach ∧
    ((gt_allocate_shadow_frame loop).2).page_translation
      = loop.page_translation ∧
    ((gt_allocate_shadow_frame loop).2).page_records = loop.page_records := by
  unfold gt_allocate_shadow_frame GTLoop.emit
  dsimp only
  split <;> exact ⟨rfl, rfl, rfl⟩

theorem gt_setup_shadow_spec {P : Type} (loop l2 : GTLoop P)
    (frame shadow : Nat)
    (h : gt_setup_shadow loop frame = (some shadow, l2)) :
    alook l2.page_translation frame = some shadow ∧
    l2.mach = loop.mach ∧
    l2.page_records = loop.page_records := by
  unfold gt_setup_shadow at h
  cases ht : alook loop.page_translation frame with
  | some s0 =>
    rw [ht] at h
    dsimp only at h
    injection h with h1 h2
    injection h1 with h1
    subst h1 h2
    exact ⟨ht, rfl, rfl⟩
  | none =>
    rw [ht] at h
    dsimp only at h
    cases ha : gt_allocate_shadow_frame loop with
    | mk gfn la =>
      rw [ha] at h
      dsimp only at h
      obtain ⟨ham, hat, har⟩ := gt_allocate_shadow_frame_fields loop
      rw [ha] at ham hat har
      by_cases hz : gfn = 0
      · rw [if_pos hz] at h
        injection h with h1 h2
        cases h1
      · rw [if_neg hz] at h
        injection h with h1 h2
        injection h1 with h1
        subst h1
        subst h2
        refine ⟨?_, ham, har⟩
        rw [GTLoop.emit_page_translation]
        exact alook_aset_self _ _ _

theorem gt_setup_page_record_spec {P : Type} (loop l3 : GTLoop P)
    (frame shadow : Nat) (page_record : PageRecord P) (isNew : Bool)
    (h : gt_setup_page_record loop frame shadow
          = (some (page_record, isNew), l3)) :
    alook l3.page_records shadow = some page_record ∧
    l3.page_translation = loop.page_translation ∧
    l3.mach.kv2p = loop.mach.kv2p ∧
    l3.mach.valid = loop.mach.valid ∧
    (isNew = false → (shadow, page_record) ∈ loop.page_records ∧ l3 = loop) ∧
    (isNew = true →
      ∀ i < GT_PAGE_SIZE, loop.mach.valid (pageAddr shadow i) = true) := by
  unfold gt_setup_page_record at h
  cases hpr : alook loop.page_records shadow with
  | some pr0 =>
    rw [hpr] at h
    dsimp only at h
    injection h with h1 h2
    injection h1 with h1
    injection h1 with h1a h1b
    subst h1a h1b h2
    refine ⟨hpr, rfl, rfl, rfl, fun _ => ⟨alook_mem _ _ _ hpr, rfl⟩,
            fun htr => Bool.noConfusion htr⟩
  | none =>
    rw [hpr] at h
    dsimp only at h
    cases hrb : loop.mach.readBytes (pageAddr frame 0) GT_PAGE_SIZE with
    | none =>
      rw [hrb] at h
      cases h
    | some buff =>
      rw [hrb] at h
      dsimp only at h
      cases hwb : loop.mach.writeBytes (pageAddr shadow 0) buff with
      | none =>
        rw [hwb] at h
        cases h
      | some m =>
        rw [hwb] at h
        dsimp only at h
        injection h with h1 h2
        injection h1 with h1
        injection h1 with h1a h1b
        subst h1a h1b h2
        obtain ⟨hk, hv⟩ := Machine.writeBytes_fields buff loop.mach m
          (pageAddr shadow 0) hwb
        refine ⟨?_, rfl, hk, hv, fun hf => Bool.noConfusion hf, fun _ => ?_⟩
        · rw [GTLoop.emit_page_records]
          exact alook_aset_self _ _ _
        · intro i hi
          have hlen : buff.length = GT_PAGE_SIZE :=
            readBytes_length loop.mach _ _ _ hrb
          have := Machine.writeBytes_addr_valid buff loop.mach m
            (pageAddr shadow 0) (pageAddr_lt _ _) hwb i (by omega)
          rw [pageAddr_shift] at this
          exact this

/-- Installing at a virtual address that already carries a breakpoint
record returns the existing record and leaves the whole state — tables,
memory, effect trace — untouched (the C's "done (no error)" early exit). -/
theorem gt_setup_mem_trap_existing {P : Type} (loop : GTLoop P) (va : Nat)
    (r : PaddrRecord P) (scb : Int → Nat → P → P) (rcb : Int → Nat → P → Unit)
    (d : P)
    (hpa : loop.mach.kv2p va ≠ 0)
    (h : gt_paddr_record_from_va loop va = some r) :
    gt_setup_mem_trap loop va scb rcb d = (some r, loop) := by
  unfold gt_paddr_record_from_va gt_paddr_record_from_pa at h
  dsimp only at h
  unfold gt_setup_mem_trap
  dsimp only
  rw [if_neg hpa]
  cases ht : alook loop.page_translation (loop.mach.kv2p va / GT_PAGE_SIZE) with
  | none =>
    rw [ht] at h
    dsimp only at h
    cases h
  | some shadow =>
    rw [ht] at h
    dsimp only at h
    have hs : gt_setup_shadow loop (loop.mach.kv2p va / GT_PAGE_SIZE)
        = (some shadow, loop) := by
      unfold gt_setup_shadow
      rw [ht]
    rw [hs]
    dsimp only
    cases hpr : alook loop.page_records shadow with
    | none =>
      rw [hpr] at h
      dsimp only at h
      cases h
    | some pr =>
      rw [hpr] at h
      dsimp only at h
      have hp : gt_setup_page_record loop (loop.mach.kv2p va / GT_PAGE_SIZE)
          shadow = (some (pr, false), loop) := by
        unfold gt_setup_page_record
        rw [hpr]
      rw [hp]
      dsimp only
      rw [if_neg Bool.false_ne_true, h]

/-- A successful install leaves the installed record findable at the
virtual address (given that recorded shadow pages are writable, which the
install path itself guarantees for pages it creates). -/
theorem gt_setup_mem_trap_success_lookup {P : Type} (loop l1 : GTLoop P)
    (va : Nat) (rec : PaddrRecord P) (scb : Int → Nat → P → P)
    (rcb : Int → Nat → P → Unit) (d : P)
    (hwf : pagesWritable loop)
    (h : gt_setup_mem_trap loop va scb rcb d = (some rec, l1)) :
    loop.mach.kv2p va ≠ 0 ∧
    l1.mach.kv2p = loop.mach.kv2p ∧
    gt_paddr_record_from_va l1 va = some rec := by
  by_cases hpa : loop.mach.kv2p va = 0
  · unfold gt_setup_mem_trap at h
    dsimp only at h
    rw [if_pos hpa] at h
    injection h with h1 h2
    cases h1
  · unfold gt_setup_mem_trap at h
    dsimp only at h
    rw [if_neg hpa] at h
    cases hs : gt_setup_shadow loop (loop.mach.kv2p va / GT_PAGE_SIZE) with
    | mk sres l2 =>
      rw [hs] at h
      cases sres with
      | none =>
        dsimp only at h
        injection h with h1 h2
        cases h1
      | some shadow =>
        dsimp only at h
        obtain ⟨hs1, hs2, hs3⟩ := gt_setup_shadow_spec loop l2 _ shadow hs
        cases hp : gt_setup_page_record l2 (loop.mach.kv2p va / GT_PAGE_SIZE)
            shadow with
        | mk pres l3 =>
          rw [hp] at h
          cases pres with
          | none =>
            dsimp only at h
            injection h with h1 h2
            cases h1
          | some prt =>
            obtain ⟨page_record, isNew⟩ := prt
            dsimp only at h
            obtain ⟨hp1, hp2, hp3, hp4, hpF, hpT⟩ :=
              gt_setup_page_record_spec l2 l3 _ shadow page_record isNew hp
            have hofflt : loop.mach.kv2p va % GT_PAGE_SIZE < GT_PAGE_SIZE :=
              Nat.mod_lt _ (by norm_num [GT_PAGE_SIZE, GT_PAGE_OFFSET_BITS])
            have hvalid : l3.mach.valid
                (pageAddr shadow (loop.mach.kv2p va % GT_PAGE_SIZE)) = true := by
              rw [hp4]
              cases isNew with
              | false =>
                obtain ⟨hmem2, _⟩ := hpF rfl
                rw [hs3] at hmem2
                rw [hs2]
                exact hwf _ hmem2 _ hofflt
              | true => exact hpT rfl _ hofflt
            cases isNew with
            | true =>
              rw [if_pos rfl] at h
              dsimp only at h
              rw [Machine.write8, if_pos hvalid] at h
              dsimp only at h
              injection h with h1 h2
              injection h1 with h1
              subst h2
              subst h1
              refine ⟨hpa, ?_, ?_⟩
              · dsimp only
                rw [hp3, hs2]
              · unfold gt_paddr_record_from_va gt_paddr_record_from_pa
                dsimp only
                rw [hp3, hs2, hp2, hs1]
                dsimp only
                rw [alook_aset_self]
                dsimp only
                rw [alook_aset_self]
            | false =>
              rw [if_neg Bool.false_ne_true] at h
              cases hc : alook page_record.children
                  (loop.mach.kv2p va % GT_PAGE_SIZE) with
              | some existing =>
                rw [hc] at h
                dsimp only at h
                injection h with h1 h2
                injection h1 with h1
                subst h2
                subst h1
                refine ⟨hpa, ?_, ?_⟩
                · rw [hp3, hs2]
                · unfold gt_paddr_record_from_va gt_paddr_record_from_pa
                  dsimp only
                  rw [hp3, hs2, hp2, hs1]
                  dsimp only
                  rw [hp1]
                  dsimp only
                  exact hc
              | none =>
                rw [hc] at h
                dsimp only at h
                rw [Machine.write8, if_pos hvalid] at h
                dsimp only at h
                injection h with h1 h2
                injection h1 with h1
                subst h2
                subst h1
                refine ⟨hpa, ?_, ?_⟩
                · dsimp only
                  rw [hp3, hs2]
                · unfold gt_paddr_record_from_va gt_paddr_record_from_pa
                  dsimp only
                  rw [hp3, hs2, hp2, hs1]
                  dsimp only
                  rw [alook_aset_self]
                  dsimp only
                  rw [alook_aset_self]

/-- C1: install is idempotent.  If an install at `va` succeeds with record
`rec` and state `l1` (from a state whose recorded shadow pages are
writable), a second install at the same address — with arbitrary new
callbacks and payload — returns the *same* record and leaves the state
completely unchanged: no duplicate record, no second shadow-frame
allocation, no byte rewritten. -/
theorem install_idempotent {P : Type} (loop l1 : GTLoop P) (va : Nat)
    (scb scb' : Int → Nat → P → P) (rcb rcb' : Int → Nat → P → Unit)
    (d d' : P) (rec : PaddrRecord P)
    (hwf : pagesWritable loop)
    (h : gt_setup_mem_trap loop va scb rcb d = (some rec, l1)) :
    gt_setup_mem_trap l1 va scb' rcb' d' = (some rec, l1) := by
  obtain ⟨hpa, hk, hlook⟩ :=
    gt_setup_mem_trap_success_lookup loop l1 va rec scb rcb d hwf h
  exact gt_setup_mem_trap_existing l1 va rec scb' rcb' d'
    (by rw [hk]; exact hpa) hlook

/-- C10: installing at a virtual address that already has a breakpoint
record returns that existing record and changes nothing: the stored
record's callbacks and payload survive (the state, hence the stored
record, is untouched), the newly supplied callbacks and payload are
discarded (they appear nowhere in the result), and the shadow byte is not
rewritten (the memory is untouched). -/
theorem install_existing_noop {P : Type} (loop : GTLoop P) (va : Nat)
    (r : PaddrRecord P) (scb : Int → Nat → P → P)
    (rcb : Int → Nat → P → Unit) (d : P)
    (hpa : loop.mach.kv2p va ≠ 0)
    (h : gt_paddr_record_from_va loop va = some r) :
    gt_setup_mem_trap loop va scb rcb d = (some r, loop) ∧
    gt_paddr_record_from_va (gt_setup_mem_trap loop va scb rcb d).2 va
      = some r ∧
    ((gt_setup_mem_trap loop va scb rcb d).2).mach.mem = loop.mach.mem ∧
    ((gt_setup_mem_trap loop va scb rcb d).2).allocCount = loop.allocCount := by
  have he := gt_setup_mem_trap_existing loop va r scb rcb d hpa h
  rw [he]
  exact ⟨rfl, h, rfl, rfl⟩

theorem install_idempotent_witness :
    pagesWritable c1Loop ∧
    gt_setup_mem_trap c1Loop 0x2000 c1Cb (fun _ _ _ => ()) ()
      = (some c1Record, c1Loop) ∧
    gt_setup_mem_trap c1Loop 0x2000 c1Cb2 (fun _ _ _ => ()) ()
      = (some c1Record, c1Loop) :=
  ⟨fun _ _ _ _ => rfl, rfl,
   install_idempotent c1Loop c1Loop 0x2000 c1Cb c1Cb2 (fun _ _ _ => ())
     (fun _ _ _ => ()) () () c1Record (fun _ _ _ _ => rfl) rfl⟩

theorem install_existing_noop_witness :
    (c10Loop.mach.kv2p 0x3000 ≠ 0) ∧
    gt_paddr_record_from_va c10Loop 0x3000 = some c10Record ∧
    (gt_setup_mem_trap c10Loop 0x3000 c1Cb2 (fun _ _ _ => ()) ()
        = (some c10Record, c10Loop) ∧
     gt_paddr_record_from_va
        (gt_setup_mem_trap c10Loop 0x3000 c1Cb2 (fun _ _ _ => ()) ()).2 0x3000
        = some c10Record ∧
     ((gt_setup_mem_trap c10Loop 0x3000 c1Cb2 (fun _ _ _ => ()) ()).2).mach.mem
        = c10Loop.mach.mem ∧
     ((gt_setup_mem_trap c10Loop 0x3000 c1Cb2 (fun _ _ _ => ()) ()).2).allocCount
        = c10Loop.allocCount) :=
  ⟨by decide, rfl,
   install_existing_noop c10Loop 0x3000 c10Record c1Cb2 (fun _ _ _ => ()) ()
     (by decide) rfl⟩

/-! ## C9: comparing the two dispatchers -/

theorem alook_none_keys {α β : Type} (l : AList α) (l' : AList β) (k : Nat)
    (hk : l.map Prod.fst = l'.map Prod.fst) (h : alook l k = none) :
    alook l' k = none := by
  cases ho : alook l' k with
  | none => rfl
  | some v =>
    exfalso
    have h2 : (alook l' k).isSome = true := by rw [ho]; rfl
    have h3 := (alook_isSome_iff_mem l' k).mp h2
    rw [← hk] at h3
    have h4 := (alook_isSome_iff_mem l k).mpr h3
    rw [h] at h4
    cases h4

theorem alook_isSome_keys {α β : Type} (l : AList α) (l' : AList β) (k : Nat)
    (hk : l.map Prod.fst = l'.map Prod.fst) {v : α} (h : alook l k = some v) :
    (alook l' k).isSome = true := by
  rw [alook_isSome_iff_mem, ← hk, ← alook_isSome_iff_mem, h]
  rfl

/-- C9 counterexample: on the same stale trap (gla 60, no record emplaced,
trampoline 50) delivered to corresponding states, the identifier-based
dispatcher answers `VMI_EVENT_RESPONSE_EMULATE` while the
callback-exposing dispatcher answers `VMI_EVENT_RESPONSE_NONE` — the two
hypervisor responses differ, refuting the claimed equivalence. -/
theorem vf_gt_response_counterexample :
    c9Loop.trampoline_addr = c9Vf.trampoline_addr ∧
    c9Loop.return_addr = c9Vf.return_point_addr ∧
    gt_paddr_record_from_va c9Loop 60 = none ∧
    vf_paddr_record_from_va c9Vf 60 = none ∧
    (gt_breakpoint_cb c9Loop ⟨60, 0, 0, 0⟩).reinject = true ∧
    (vf_breakpoint_cb c9Vf ⟨60, 0, 0, 0⟩).reinject = true ∧
    (gt_breakpoint_cb c9Loop ⟨60, 0, 0, 0⟩).response = Response.none_ ∧
    (vf_breakpoint_cb c9Vf ⟨60, 0, 0, 0⟩).response
      = { emulate := true : Response } ∧
    (gt_breakpoint_cb c9Loop ⟨60, 0, 0, 0⟩).response
      ≠ (vf_breakpoint_cb c9Vf ⟨60, 0, 0, 0⟩).response := by
  refine ⟨rfl, rfl, rfl, rfl, rfl, rfl, rfl, rfl, ?_⟩
  intro hcontra
  have h1 : (gt_breakpoint_cb c9Loop ⟨60, 0, 0, 0⟩).response.emulate = false := rfl
  have h2 : (vf_breakpoint_cb c9Vf ⟨60, 0, 0, 0⟩).response.emulate = true := rfl
  rw [hcontra, h2] at h1
  cases h1

/-- C9 (amended): with entry and return callbacks reduced to the built-in
printer (payload type `Unit`), and for trap events whose stack accesses
are well-defined (the call-site stack slot translates and reads
successfully, the recorded thread id is fresh, and the return-site thread
id translates), the two dispatchers produce the same re-inject flag,
`slat_id`, RIP write, guest-memory state, guest-stack write log, and
tracker key set, and the same single-step/view-switch response flags —
*except* that on a stale trap (call-site address with no record) only the
identifier-based variant additionally requests
`VMI_EVENT_RESPONSE_EMULATE`. -/
theorem vf_gt_dispatch_equiv (L : GTLoop Unit) (V : VfState) (ev : TrapEvent)
    (hm : L.mach = V.mach)
    (ht : L.trampoline_addr = V.trampoline_addr)
    (hr : L.return_addr = V.return_point_addr)
    (hw : L.return_addr_width = 8)
    (hsw : L.stackWrites = V.stackWrites)
    (hk : L.ret_addr_mapping.map Prod.fst
          = V.vf_ret_addr_mapping.map Prod.fst)
    (hwfK : ∀ p ∈ L.ret_addr_mapping, (p.2).thread_id = p.1)
    (hbp : (gt_paddr_record_from_va L ev.gla).isSome
            = (vf_paddr_record_from_va V ev.gla).isSome)
    (hcall : ev.gla ≠ L.trampoline_addr →
      (gt_paddr_record_from_va L ev.gla).isSome = true →
      L.mach.kv2p ev.rsp ≠ 0 ∧
      (L.mach.read64 (L.mach.kv2p ev.rsp)).isSome = true ∧
      alook L.ret_addr_mapping ev.rsp = none)
    (hret : ev.gla = L.trampoline_addr →
      L.mach.kv2p (sub64 ev.rsp 8) ≠ 0) :
    (gt_breakpoint_cb L ev).reinject = (vf_breakpoint_cb V ev).reinject ∧
    (gt_breakpoint_cb L ev).slatId = (vf_breakpoint_cb V ev).slatId ∧
    (gt_breakpoint_cb L ev).ripWrite = (vf_breakpoint_cb V ev).ripWrite ∧
    (gt_breakpoint_cb L ev).loop.stackWrites
        = (vf_breakpoint_cb V ev).state.stackWrites ∧
    (gt_breakpoint_cb L ev).loop.mach = (vf_breakpoint_cb V ev).state.mach ∧
    (gt_breakpoint_cb L ev).loop.ret_addr_mapping.map Prod.fst
        = (vf_breakpoint_cb V ev).state.vf_ret_addr_mapping.map Prod.fst ∧
    (gt_breakpoint_cb L ev).response.toggleSinglestep
        = (vf_breakpoint_cb V ev).response.toggleSinglestep ∧
    (gt_breakpoint_cb L ev).response.vmmPagetableId
        = (vf_breakpoint_cb V ev).response.vmmPagetableId ∧
    (gt_breakpoint_cb L ev).response.emulate = false ∧
    (vf_breakpoint_cb V ev).response.emulate
        = (if ev.gla = L.trampoline_addr then false
           else !(gt_paddr_record_from_va L ev.gla).isSome) := by
  by_cases hgla : ev.gla = L.trampoline_addr
  · -- Return-site path.
    have hgla' : ev.gla = V.trampoline_addr := hgla.trans ht
    cases hA : alook L.ret_addr_mapping (sub64 ev.rsp 8) with
    | none =>
      have hB : alook V.vf_ret_addr_mapping (sub64 ev.rsp 8) = none :=
        alook_none_keys _ _ _ hk hA
      have hG : gt_breakpoint_cb L ev =
          { response := .none_, reinject := false, slatId := none
            ripWrite := none, entryCalls := [], retCalls := [], loop := L } := by
        unfold gt_breakpoint_cb
        rw [if_pos hgla, hw]
        try dsimp only
        rw [hA]
      have hV : vf_breakpoint_cb V ev =
          { response := .none_, reinject := false, slatId := none
            ripWrite := none, printSyscalls := [], printSysrets := []
            state := V } := by
        unfold vf_breakpoint_cb
        rw [if_pos hgla']
        try dsimp only
        rw [hB]
      rw [hG, hV]
      exact ⟨rfl, rfl, rfl, hsw, hm, hk, rfl, rfl, rfl, by rw [if_pos hgla]; rfl⟩
    | some st =>
      have hTid : st.thread_id = sub64 ev.rsp 8 := hwfK _ (alook_mem _ _ _ hA)
      have hpa : L.mach.kv2p (sub64 ev.rsp 8) ≠ 0 := hret hgla
      obtain ⟨pr, hB⟩ := Option.isSome_iff_exists.mp
        (alook_isSome_keys _ _ _ hk hA)
      have hG : gt_breakpoint_cb L ev =
          { response := .none_, reinject := false, slatId := none
            ripWrite := some L.return_addr, entryCalls := []
            retCalls := [(L.mach.dtbToPid ev.cr3, sub64 ev.rsp 8, st.data)]
            loop :=
              { L with
                  mach := L.mach.write64 (L.mach.kv2p (sub64 ev.rsp 8))
                            L.return_addr
                  stackWrites := L.stackWrites
                    ++ [(L.mach.kv2p (sub64 ev.rsp 8), L.return_addr)]
                  ret_addr_mapping :=
                    aerase L.ret_addr_mapping (sub64 ev.rsp 8) } } := by
        unfold gt_breakpoint_cb
        rw [if_pos hgla, hw]
        try dsimp only
        rw [hA]
        try dsimp only
        unfold GTLoop.retRemove
        rw [hA]
        try dsimp only
        unfold gt_restore_return_addr
        try dsimp only
        rw [hTid, if_neg hpa]
        try dsimp only
        rw [hw]
      have hV : vf_breakpoint_cb V ev =
          { response := .none_, reinject := false, slatId := none
            ripWrite := some V.return_point_addr, printSyscalls := []
            printSysrets := [(ev.vcpu_id, pr)]
            state :=
              { V with
                  mach := V.mach.write64 (V.mach.kv2p (sub64 ev.rsp 8))
                            V.return_point_addr
                  stackWrites := V.stackWrites
                    ++ [(V.mach.kv2p (sub64 ev.rsp 8), V.return_point_addr)]
                  vf_ret_addr_mapping :=
                    aerase V.vf_ret_addr_mapping (sub64 ev.rsp 8) } } := by
        unfold vf_breakpoint_cb
        rw [if_pos hgla']
        try dsimp only
        rw [hB]
      rw [hG, hV]
      refine ⟨rfl, rfl, ?_, ?_, ?_, ?_, rfl, rfl, rfl, by rw [if_pos hgla]; rfl⟩
      · try dsimp only
        rw [hr]
      · try dsimp only
        rw [hsw, hm, hr]
      · try dsimp only
        rw [hm, hr]
      · try dsimp only
        rw [map_fst_aerase, map_fst_aerase, hk]
  · -- Call-site path.
    have hgla' : ¬ ev.gla = V.trampoline_addr := fun hh => hgla (hh.trans ht.symm)
    cases hA : gt_paddr_record_from_va L ev.gla with
    | none =>
      have hB : vf_paddr_record_from_va V ev.gla = none := by
        have hth := hbp
        rw [hA] at hth
        cases hvv : vf_paddr_record_from_va V ev.gla with
        | none => rfl
        | some x =>
          rw [hvv] at hth
          cases hth
      have hG : gt_breakpoint_cb L ev =
          { response := .none_, reinject := true, slatId := none
            ripWrite := none, entryCalls := [], retCalls := [], loop := L } := by
        unfold gt_breakpoint_cb
        rw [if_neg hgla, hA]
      have hV : vf_breakpoint_cb V ev =
          { response := { emulate := true }, reinject := true, slatId := none
            ripWrite := none, printSyscalls := [], printSysrets := []
            state := V } := by
        unfold vf_breakpoint_cb
        rw [if_neg hgla', hB]
      rw [hG, hV]
      exact ⟨rfl, rfl, rfl, hsw, hm, hk, rfl, rfl, rfl,
             by rw [if_neg hgla]; rfl⟩
    | some record =>
      obtain ⟨pr, hB⟩ := Option.isSome_iff_exists.mp
        (by rw [← hbp, hA]; rfl)
      obtain ⟨h1, h2, h3⟩ := hcall hgla (by rw [hA]; rfl)
      obtain ⟨w, hw2⟩ := Option.isSome_iff_exists.mp h2
      have hw2' : V.mach.read64 (V.mach.kv2p ev.rsp) = some w := by
        rw [← hm]
        exact hw2
      by_cases hwR : w = L.return_addr
      · -- Both record the call and hijack the stack.
        have hG : gt_breakpoint_cb L ev =
            { response := .stepAndFlip, reinject := false, slatId := some 0
              ripWrite := none
              entryCalls := [(L.mach.dtbToPid ev.cr3, ev.rsp, record.data)]
              retCalls := []
              loop :=
                { L with
                    mach := L.mach.write64 (L.mach.kv2p ev.rsp)
                              L.trampoline_addr
                    stackWrites := L.stackWrites
                      ++ [(L.mach.kv2p ev.rsp, L.trampoline_addr)]
                    ret_addr_mapping := aset L.ret_addr_mapping ev.rsp
                      ⟨record,
                       record.syscall_cb (L.mach.dtbToPid ev.cr3) ev.rsp
                         record.data,
                       ev.rsp⟩ } } := by
          unfold gt_breakpoint_cb
          rw [if_neg hgla, hA]
          try dsimp only
          rw [if_neg h1, hw2]
          try dsimp only
          rw [if_neg (fun hh => hh hwR)]
          try dsimp only
          unfold GTLoop.retInsert
          rw [h3]
          try dsimp only
        have hV : vf_breakpoint_cb V ev =
            { response := .stepAndFlip, reinject := false, slatId := some 0
              ripWrite := none, printSyscalls := [(ev.vcpu_id, pr)]
              printSysrets := []
              state :=
                { V with
                    mach := V.mach.write64 (V.mach.kv2p ev.rsp)
                              V.trampoline_addr
                    stackWrites := V.stackWrites
                      ++ [(V.mach.kv2p ev.rsp, V.trampoline_addr)]
                    vf_ret_addr_mapping :=
                      aset V.vf_ret_addr_mapping ev.rsp pr } } := by
          unfold vf_breakpoint_cb
          rw [if_neg hgla', hB]
          try dsimp only
          rw [hw2']
          try dsimp only
          rw [if_pos (by rw [← hr]; exact hwR)]
          try rfl
        rw [hG, hV]
        refine ⟨rfl, rfl, rfl, ?_, ?_, ?_, rfl, rfl, rfl,
                by rw [if_neg hgla]; rfl⟩
        · try dsimp only
          rw [hsw, hm, ht]
        · try dsimp only
          rw [hm, ht]
        · try dsimp only
          rw [map_fst_aset, map_fst_aset, hk]
      · -- Unexpected stack word: both skip recording but still flip + step.
        have hG : gt_breakpoint_cb L ev =
            { response := .stepAndFlip, reinject := false, slatId := some 0
              ripWrite := none, entryCalls := [], retCalls := []
              loop := L } := by
          unfold gt_breakpoint_cb
          rw [if_neg hgla, hA]
          try dsimp only
          rw [if_neg h1, hw2]
          try dsimp only
          rw [if_pos hwR]
          try rfl
        have hV : vf_breakpoint_cb V ev =
            { response := .stepAndFlip, reinject := false, slatId := some 0
              ripWrite := none, printSyscalls := [], printSysrets := []
              state := V } := by
          unfold vf_breakpoint_cb
          rw [if_neg hgla', hB]
          try dsimp only
          rw [hw2']
          try dsimp only
          rw [if_neg (fun hh => hwR (by rw [hr]; exact hh))]
          try rfl
        rw [hG, hV]
        exact ⟨rfl, rfl, rfl, hsw, hm, hk, rfl, rfl, rfl,
               by rw [if_neg hgla]; rfl⟩

theorem c9WLoop_wfK : ∀ p ∈ c9WLoop.ret_addr_mapping, (p.2).thread_id = p.1 := by
  intro p hp
  rcases List.mem_cons.mp hp with h | h
  · subst h
    rfl
  · cases h

theorem vf_gt_dispatch_equiv_witness :
    c9WLoop.mach = c9WVf.mach ∧
    c9WLoop.trampoline_addr = c9WVf.trampoline_addr ∧
    c9WLoop.return_addr = c9WVf.return_point_addr ∧
    c9WLoop.return_addr_width = 8 ∧
    c9WLoop.stackWrites = c9WVf.stackWrites ∧
    c9WLoop.ret_addr_mapping.map Prod.fst
        = c9WVf.vf_ret_addr_mapping.map Prod.fst ∧
    (∀ p ∈ c9WLoop.ret_addr_mapping, (p.2).thread_id = p.1) ∧
    (gt_paddr_record_from_va c9WLoop c9WEv.gla).isSome
        = (vf_paddr_record_from_va c9WVf c9WEv.gla).isSome ∧
    (c9WEv.gla = c9WLoop.trampoline_addr →
        c9WLoop.mach.kv2p (sub64 c9WEv.rsp 8) ≠ 0) ∧
    ((gt_breakpoint_cb c9WLoop c9WEv).reinject
        = (vf_breakpoint_cb c9WVf c9WEv).reinject ∧
     (gt_breakpoint_cb c9WLoop c9WEv).slatId
        = (vf_breakpoint_cb c9WVf c9WEv).slatId ∧
     (gt_breakpoint_cb c9WLoop c9WEv).ripWrite
        = (vf_breakpoint_cb c9WVf c9WEv).ripWrite ∧
     (gt_breakpoint_cb c9WLoop c9WEv).loop.stackWrites
        = (vf_breakpoint_cb c9WVf c9WEv).state.stackWrites ∧
     (gt_breakpoint_cb c9WLoop c9WEv).loop.mach
        = (vf_breakpoint_cb c9WVf c9WEv).state.mach ∧
     (gt_breakpoint_cb c9WLoop c9WEv).loop.ret_addr_mapping.map Prod.fst
        = (vf_breakpoint_cb c9WVf c9WEv).state.vf_ret_addr_mapping.map
            Prod.fst ∧
     (gt_breakpoint_cb c9WLoop c9WEv).response.toggleSinglestep
        = (vf_breakpoint_cb c9WVf c9WEv).response.toggleSinglestep ∧
     (gt_breakpoint_cb c9WLoop c9WEv).response.vmmPagetableId
        = (vf_breakpoint_cb c9WVf c9WEv).response.vmmPagetableId ∧
     (gt_breakpoint_cb c9WLoop c9WEv).response.emulate = false ∧
     (vf_breakpoint_cb c9WVf c9WEv).response.emulate
        = (if c9WEv.gla = c9WLoop.trampoline_addr then false
           else !(gt_paddr_record_from_va c9WLoop c9WEv.gla).isSome)) :=
  ⟨rfl, rfl, rfl, rfl, rfl, rfl, c9WLoop_wfK, rfl, fun _ => by decide,
   vf_gt_dispatch_equiv c9WLoop c9WVf c9WEv rfl rfl rfl rfl rfl rfl
     c9WLoop_wfK rfl (fun hh _ => absurd rfl hh) (fun _ => by decide)⟩

end Guestrace
